import Mathlib

/-!
Shallow embedding of the jameboy Game Boy emulator (src/util.rs, src/memory.rs,
src/cpu.rs, src/opcode.rs and the parts of src/ppu.rs the claims touch).

Machine integers are embedded as `Nat` with explicit wrapping (`% 256`,
`% 65536`, bitwise masks) exactly where the Rust types wrap.  Rust byte arrays
(`[u8; 0x10000]`, `[u8; 0x100]`) are embedded as total functions `Nat → Nat`;
in every reachable state the stored values are bytes (< 256), but no theorem
below needs that bound.  A Rust `&mut` function is embedded as a function
returning the updated value(s).
-/

namespace Jameboy

/-! util.rs -/

/-- Converts two u8s into a u16 (util.rs `u8_to_u16`): `((msb as u16) << 8) | lsb`. -/
def u8_to_u16 (msb lsb : Nat) : Nat :=
  (msb <<< 8) ||| lsb

/-- Splits a u16 into (most significant byte, least significant byte)
(util.rs `u16_to_u8`): `((val >> 8) as u8, (val & 0xFF) as u8)`. -/
def u16_to_u8 (val : Nat) : Nat × Nat :=
  ((val >>> 8) &&& 0xFF, val &&& 0xFF)

/-- Half-carry of a 16-bit addition (util.rs `half_carried_add16`). -/
def half_carried_add16 (a b : Nat) : Bool :=
  ((a &&& 0x0FFF) + (b &&& 0x0FFF)) &&& 0x1000 == 0x1000

/-- Half-carry of an 8-bit addition (util.rs `half_carried_add8`). -/
def half_carried_add8 (a b : Nat) : Bool :=
  ((a &&& 0xF) + (b &&& 0xF)) &&& 0x10 == 0x10

/-- Half-carry of an 8-bit subtraction (util.rs `half_carried_sub8`);
`wrapping_sub` on u8 is embedded as `(x + 256 - y) % 256`. -/
def half_carried_sub8 (a b : Nat) : Bool :=
  (((a &&& 0xF) + 256 - (b &&& 0xF)) % 256) &&& 0x10 == 0x10

/-- util.rs `bit`: `x & (1 << bit)`. -/
def bit (x b : Nat) : Nat :=
  x &&& (1 <<< b)

/-- util.rs `set_bits`: `(original & !mask) | (new & mask)`; the u8 complement
`!mask` is `mask ^ 0xFF`. -/
def set_bits (original new mask : Nat) : Nat :=
  (original &&& (mask ^^^ 0xFF)) ||| (new &&& mask)

/-! memory.rs -/

/-- memory.rs `DmaState`. -/
inductive DmaState where
  | inactive : DmaState
  | active (src_addr : Nat) (cycles : Nat) (last_transferred_byte : Nat) : DmaState

/-- memory.rs `Memory`.  Addresses are u16 values embedded as `Nat`. -/
structure Memory where
  bootstrap_rom : Nat → Nat
  dma_state : DmaState
  ram : Nat → Nat
  pc : Nat

/-- memory.rs `Memory::read`.  The 0xFF44 check in the source has an empty body
and the DMA conflict-masking block is commented out, so neither appears here:
the function only consults the boot-ROM overlay. -/
def Memory.read (m : Memory) (address : Nat) : Nat :=
  if m.ram 0xFF50 == 0 && address < 0x100 then
    m.bootstrap_rom address
  else
    m.ram address

/-- Pointwise update of a `Nat → Nat` array embedding. -/
def setRam (ram : Nat → Nat) (address value : Nat) : Nat → Nat :=
  fun a => if a = address then value else ram a

/-- memory.rs `Memory::step`: one DMA cycle.  `src_addr + cycles` is a u16
addition, embedded with an explicit wrap. -/
def Memory.step (m : Memory) : Memory :=
  match m.dma_state with
  | .inactive => m
  | .active src_addr cycles _ =>
    let dst_address := u8_to_u16 0xFE cycles
    let byte_to_transfer := m.ram ((src_addr + cycles) % 65536)
    let m := { m with ram := setRam m.ram dst_address byte_to_transfer }
    if cycles ≤ 158 then
      { m with dma_state := .active src_addr (cycles + 1) byte_to_transfer }
    else
      { m with dma_state := .inactive }

/-- memory.rs `Memory::write`: during an active DMA transfer writes outside
[0xFF80, 0xFFFE] are dropped; a write to 0xFF46 starts a DMA transfer. -/
def Memory.write (m : Memory) (address value : Nat) : Memory :=
  match m.dma_state with
  | .active _ _ _ =>
    if address < 0xFF80 || address > 0xFFFE then
      m
    else
      let m := { m with ram := setRam m.ram address value }
      if address == 0xFF46 then
        { m with dma_state := .active (u8_to_u16 value 0x00) 0 0 }
      else
        m
  | .inactive =>
    let m := { m with ram := setRam m.ram address value }
    if address == 0xFF46 then
      { m with dma_state := .active (u8_to_u16 value 0x00) 0 0 }
    else
      m

/-! cpu.rs: registers, flags, the CPU state -/

/-- cpu.rs `Register`. -/
inductive Register where
  | A | B | C | D | E | H | L

/-- cpu.rs `RegisterWide`. -/
inductive RegisterWide where
  | AF | BC | DE | HL | PC | SP

/-- cpu.rs `Flags`. -/
structure Flags where
  zero : Bool
  subtract : Bool
  half_carry : Bool
  carry : Bool

/-- cpu.rs `WriteFlags` (`None` = leave the flag untouched). -/
structure WriteFlags where
  zero : Option Bool := none
  subtract : Option Bool := none
  half_carry : Option Bool := none
  carry : Option Bool := none

/-- cpu.rs `Cpu`. -/
structure Cpu where
  a : Nat
  b : Nat
  c : Nat
  d : Nat
  e : Nat
  f : Nat
  h : Nat
  l : Nat
  pc : Nat
  sp : Nat
  ime : Bool
  steps_since_request_ime_enable : Option Nat
  prefixed : Bool

/-- cpu.rs `Cpu::read_register`. -/
def Cpu.read_register (cpu : Cpu) (r : Register) : Nat :=
  match r with
  | .A => cpu.a
  | .B => cpu.b
  | .C => cpu.c
  | .D => cpu.d
  | .E => cpu.e
  | .H => cpu.h
  | .L => cpu.l

/-- cpu.rs `Cpu::read_register_wide`. -/
def Cpu.read_register_wide (cpu : Cpu) (r : RegisterWide) : Nat :=
  match r with
  | .AF => u8_to_u16 cpu.a cpu.f
  | .BC => u8_to_u16 cpu.b cpu.c
  | .DE => u8_to_u16 cpu.d cpu.e
  | .HL => u8_to_u16 cpu.h cpu.l
  | .PC => cpu.pc
  | .SP => cpu.sp

/-- cpu.rs `Cpu::write_register`. -/
def Cpu.write_register (cpu : Cpu) (r : Register) (value : Nat) : Cpu :=
  match r with
  | .A => { cpu with a := value }
  | .B => { cpu with b := value }
  | .C => { cpu with c := value }
  | .D => { cpu with d := value }
  | .E => { cpu with e := value }
  | .H => { cpu with h := value }
  | .L => { cpu with l := value }

/-- cpu.rs `Cpu::write_register_wide`.  Only the upper nibble of F is
writable: the AF arm masks the low byte with 0b1111_0000. -/
def Cpu.write_register_wide (cpu : Cpu) (r : RegisterWide) (value : Nat) : Cpu :=
  match r with
  | .AF =>
    let p := u16_to_u8 value
    { cpu with a := p.1, f := p.2 &&& 0xF0 }
  | .BC =>
    let p := u16_to_u8 value
    { cpu with b := p.1, c := p.2 }
  | .DE =>
    let p := u16_to_u8 value
    { cpu with d := p.1, e := p.2 }
  | .HL =>
    let p := u16_to_u8 value
    { cpu with h := p.1, l := p.2 }
  | .PC => { cpu with pc := value }
  | .SP => { cpu with sp := value }

/-- cpu.rs `Cpu::read_flags`. -/
def Cpu.read_flags (cpu : Cpu) : Flags :=
  { zero := bit cpu.f 7 != 0
    subtract := bit cpu.f 6 != 0
    half_carry := bit cpu.f 5 != 0
    carry := bit cpu.f 4 != 0 }

/-- cpu.rs `Cpu::request_ime_enable`. -/
def Cpu.request_ime_enable (cpu : Cpu) : Cpu :=
  { cpu with steps_since_request_ime_enable := some 0 }

/-- cpu.rs `Cpu::request_ime_disable`. -/
def Cpu.request_ime_disable (cpu : Cpu) : Cpu :=
  { cpu with ime := false, steps_since_request_ime_enable := none }

/-- cpu.rs `Cpu::write_flags`: four sequential conditional updates of the four
high bits of F; the u8 complement `!(1 << k)` is `(1 << k) ^ 0xFF`. -/
def Cpu.write_flags (cpu : Cpu) (fl : WriteFlags) : Cpu :=
  let f := match fl.zero with
    | some true => cpu.f ||| (1 <<< 7)
    | some false => cpu.f &&& ((1 <<< 7) ^^^ 0xFF)
    | none => cpu.f
  let f := match fl.subtract with
    | some true => f ||| (1 <<< 6)
    | some false => f &&& ((1 <<< 6) ^^^ 0xFF)
    | none => f
  let f := match fl.half_carry with
    | some true => f ||| (1 <<< 5)
    | some false => f &&& ((1 <<< 5) ^^^ 0xFF)
    | none => f
  let f := match fl.carry with
    | some true => f ||| (1 <<< 4)
    | some false => f &&& ((1 <<< 4) ^^^ 0xFF)
    | none => f
  { cpu with f := f }

/-- cpu.rs `Cpu::check_interrupts_enabled`. -/
def Cpu.check_interrupts_enabled (cpu : Cpu) : Cpu :=
  match cpu.steps_since_request_ime_enable with
  | some 1 => { cpu with ime := true, steps_since_request_ime_enable := none }
  | some 0 => { cpu with steps_since_request_ime_enable := some 1 }
  | _ => cpu

/-! opcode.rs: the Opcode structure and the helper functions at the end of the
file.  A Rust handler `fn(&mut Cpu, &mut Memory)` is embedded as
`Cpu → Memory → Cpu × Memory`; helpers that never touch the memory (or never
touch the CPU) return only the part they modify. -/

/-- opcode.rs `Bit`. -/
inductive Bit where
  | Zero | One | Two | Three | Four | Five | Six | Seven

/-- Discriminant of opcode.rs `Bit` (Rust `b as u8`). -/
def Bit.val : Bit → Nat
  | .Zero => 0
  | .One => 1
  | .Two => 2
  | .Three => 3
  | .Four => 4
  | .Five => 5
  | .Six => 6
  | .Seven => 7

/-- opcode.rs `IndirectAddressingMode`. -/
inductive IndirectAddressingMode where
  | Retain | Decrement | Increment

/-- opcode.rs `Opcode`. -/
structure Opcode where
  mnemonic : String
  size_bytes : Nat
  handler : Option (Cpu → Memory → Cpu × Memory)

/-- opcode.rs `Opcode::execute`: a missing handler only prints a message, the
machine state is unchanged. -/
def Opcode.execute (op : Opcode) (cpu : Cpu) (memory : Memory) : Cpu × Memory :=
  match op.handler with
  | some handler => handler cpu memory
  | none => (cpu, memory)

/-- opcode.rs `add_hl_r16`.  `overflowing_add` on u16 yields the wrapped sum
and the overflow bit. -/
def add_hl_r16 (cpu : Cpu) (r : RegisterWide) : Cpu :=
  let hl := cpu.read_register_wide .HL
  let value := cpu.read_register_wide r
  let result := (hl + value) % 65536
  let overflowed := 65536 ≤ hl + value
  let cpu := cpu.write_register_wide .HL result
  cpu.write_flags
    { subtract := some false
      half_carry := some (half_carried_add16 hl value)
      carry := some overflowed }

/-- opcode.rs `add_r8`. -/
def add_r8 (cpu : Cpu) (r : Register) : Cpu :=
  let a := cpu.read_register .A
  let b := cpu.read_register r
  let result := (a + b) % 256
  let overflowed := 256 ≤ a + b
  let cpu := cpu.write_register .A result
  cpu.write_flags
    { zero := some (result == 0)
      subtract := some false
      half_carry := some (half_carried_add8 a b)
      carry := some overflowed }

/-- opcode.rs `adc_r8` (the source adds the carry both into `b` and into the
result; embedded as written). -/
def adc_r8 (cpu : Cpu) (r : Register) : Cpu :=
  let a := cpu.read_register .A
  let carry_bit := if (cpu.read_flags).carry then 1 else 0
  let b := (cpu.read_register r + carry_bit) % 256
  let result0 := (a + b) % 256
  let overflowed0 := 256 ≤ a + b
  let result := if (cpu.read_flags).carry then (result0 + 1) % 256 else result0
  let overflowed :=
    if (cpu.read_flags).carry then (overflowed0 || (256 ≤ result0 + 1)) else overflowed0
  let cpu := cpu.write_register .A result
  cpu.write_flags
    { zero := some (result == 0)
      subtract := some false
      half_carry := some (half_carried_add8 a b)
      carry := some overflowed }

/-- opcode.rs `and_r8`. -/
def and_r8 (cpu : Cpu) (r : Register) : Cpu :=
  let a := cpu.read_register .A
  let b := cpu.read_register r
  let result := a &&& b
  let cpu := cpu.write_register .A result
  cpu.write_flags
    { zero := some (result == 0)
      subtract := some false
      half_carry := some true
      carry := some false }

/-- opcode.rs `bit_indirect_hl`. -/
def bit_indirect_hl (cpu : Cpu) (memory : Memory) (b : Bit) : Cpu :=
  let hl := cpu.read_register_wide .HL
  let value := memory.read hl
  let bitv := value &&& (1 <<< b.val)
  cpu.write_flags
    { zero := some (bitv == 0)
      subtract := some false
      half_carry := some true }

/-- opcode.rs `bit_r8`. -/
def bit_r8 (cpu : Cpu) (b : Bit) (r : Register) : Cpu :=
  let bitv := cpu.read_register r &&& (1 <<< b.val)
  cpu.write_flags
    { zero := some (bitv == 0)
      subtract := some false
      half_carry := some true }

/-- opcode.rs `call_a16`.  u16 subtraction and addition wrap. -/
def call_a16 (cpu : Cpu) (memory : Memory) : Cpu × Memory :=
  let pc := cpu.read_register_wide .PC
  let msb := memory.read ((pc + 65536 - 1) % 65536)
  let lsb := memory.read ((pc + 65536 - 2) % 65536)
  let address := u8_to_u16 msb lsb
  let sp := cpu.read_register_wide .SP
  let new_sp := (sp + 65536 - 2) % 65536
  let p := u16_to_u8 pc
  let memory := memory.write new_sp p.2
  let memory := memory.write ((new_sp + 1) % 65536) p.1
  let cpu := cpu.write_register_wide .SP new_sp
  let cpu := cpu.write_register_wide .PC address
  (cpu, memory)

/-- opcode.rs `cp_r8`. -/
def cp_r8 (cpu : Cpu) (r : Register) : Cpu :=
  let a := cpu.read_register .A
  let b := cpu.read_register r
  let result := (a + 256 - b) % 256
  let overflowed := a < b
  cpu.write_flags
    { zero := some (result == 0)
      subtract := some true
      half_carry := some (half_carried_sub8 a b)
      carry := some overflowed }

/-- opcode.rs `dec_r8`. -/
def dec_r8 (cpu : Cpu) (r : Register) : Cpu :=
  let a := cpu.read_register r
  let result := (a + 256 - 1) % 256
  let cpu := cpu.write_flags
    { zero := some (result == 0)
      subtract := some true
      half_carry := some (half_carried_sub8 a 1)
      carry := none }
  cpu.write_register r result

/-- opcode.rs `dec_r16` (u16 wrapping decrement). -/
def dec_r16 (cpu : Cpu) (r : RegisterWide) : Cpu :=
  let value := cpu.read_register_wide r
  cpu.write_register_wide r ((value + 65536 - 1) % 65536)

/-- opcode.rs `inc_r8`. -/
def inc_r8 (cpu : Cpu) (r : Register) : Cpu :=
  let a := cpu.read_register r
  let result := (a + 1) % 256
  let cpu := cpu.write_register r result
  cpu.write_flags
    { zero := some (result == 0)
      subtract := some false
      half_carry := some (half_carried_add8 a 1)
      carry := none }

/-- opcode.rs `inc_r16` (u16 wrapping increment). -/
def inc_r16 (cpu : Cpu) (r : RegisterWide) : Cpu :=
  let value := cpu.read_register_wide r
  cpu.write_register_wide r ((value + 1) % 65536)

/-- opcode.rs `jump`. -/
def jump (cpu : Cpu) (memory : Memory) : Cpu :=
  let pc := cpu.read_register_wide .PC
  let msb := memory.read ((pc + 65536 - 1) % 65536)
  let lsb := memory.read ((pc + 65536 - 2) % 65536)
  cpu.write_register_wide .PC (u8_to_u16 msb lsb)

/-- opcode.rs `jump_relative`: the operand byte is reinterpreted as i8 and
added to PC with wrapping. -/
def jump_relative (cpu : Cpu) (memory : Memory) : Cpu :=
  let pc := cpu.read_register_wide .PC
  let imm := memory.read ((pc + 65536 - 1) % 65536)
  let offset := if imm < 128 then imm else imm + 65536 - 256
  cpu.write_register_wide .PC ((pc + offset) % 65536)

/-- opcode.rs `ld_r8_r8`. -/
def ld_r8_r8 (cpu : Cpu) (dst_register src_register : Register) : Cpu :=
  cpu.write_register dst_register (cpu.read_register src_register)

/-- opcode.rs `ld_r8_indirect_r16`. -/
def ld_r8_indirect_r16 (cpu : Cpu) (memory : Memory) (dst_register : Register)
    (src_register : RegisterWide) (mode : IndirectAddressingMode) : Cpu :=
  let src_address := cpu.read_register_wide src_register
  let value := memory.read src_address
  let cpu := cpu.write_register dst_register value
  let register_value := cpu.read_register_wide src_register
  match mode with
  | .Retain => cpu
  | .Increment => cpu.write_register_wide src_register ((register_value + 1) % 65536)
  | .Decrement => cpu.write_register_wide src_register ((register_value + 65536 - 1) % 65536)

/-- opcode.rs `ld_indirect_r16_r8`. -/
def ld_indirect_r16_r8 (cpu : Cpu) (memory : Memory) (dst_register : RegisterWide)
    (src_register : Register) (mode : IndirectAddressingMode) : Cpu × Memory :=
  let dst_value := cpu.read_register_wide dst_register
  let src_value := cpu.read_register src_register
  let memory := memory.write dst_value src_value
  let new_dst_register :=
    match mode with
    | .Retain => dst_value
    | .Increment => (dst_value + 1) % 65536
    | .Decrement => (dst_value + 65536 - 1) % 65536
  (cpu.write_register_wide dst_register new_dst_register, memory)

/-- opcode.rs `ld_r8_n8`. -/
def ld_r8_n8 (cpu : Cpu) (memory : Memory) (r : Register) : Cpu :=
  let pc := cpu.read_register_wide .PC
  let imm := memory.read ((pc + 65536 - 1) % 65536)
  cpu.write_register r imm

/-- opcode.rs `ld_r16_n16`. -/
def ld_r16_n16 (cpu : Cpu) (memory : Memory) (r : RegisterWide) : Cpu :=
  let pc := cpu.read_register_wide .PC
  let msb := memory.read ((pc + 65536 - 1) % 65536)
  let lsb := memory.read ((pc + 65536 - 2) % 65536)
  cpu.write_register_wide r (u8_to_u16 msb lsb)

/-- opcode.rs `or_r8`. -/
def or_r8 (cpu : Cpu) (r : Register) : Cpu :=
  let a := cpu.read_register .A
  let b := cpu.read_register r
  let result := a ||| b
  let cpu := cpu.write_register .A result
  cpu.write_flags
    { zero := some (result == 0)
      subtract := some false
      half_carry := some false
      carry := some false }

/-- opcode.rs `pop`. -/
def pop (cpu : Cpu) (memory : Memory) (r : RegisterWide) : Cpu :=
  let sp := cpu.read_register_wide .SP
  let lsb := memory.read sp
  let msb := memory.read ((sp + 1) % 65536)
  let cpu := cpu.write_register_wide .SP ((sp + 2) % 65536)
  cpu.write_register_wide r (u8_to_u16 msb lsb)

/-- opcode.rs `push`. -/
def push (cpu : Cpu) (memory : Memory) (r : RegisterWide) : Cpu × Memory :=
  let value := cpu.read_register_wide r
  let p := u16_to_u8 value
  let sp := cpu.read_register_wide .SP
  let memory := memory.write ((sp + 65536 - 1) % 65536) p.1
  let memory := memory.write ((sp + 65536 - 2) % 65536) p.2
  (cpu.write_register_wide .SP ((sp + 65536 - 2) % 65536), memory)

/-- opcode.rs `res_indirect_hl`: writes back `set_bits(value, 1, 1 << b)`. -/
def res_indirect_hl (cpu : Cpu) (memory : Memory) (b : Bit) : Memory :=
  let hl := cpu.read_register_wide .HL
  let value := memory.read hl
  let new_value := set_bits value 1 (1 <<< b.val)
  memory.write hl new_value

/-- opcode.rs `res_r8`: writes back `set_bits(value, 1, 1 << b)`. -/
def res_r8 (cpu : Cpu) (b : Bit) (r : Register) : Cpu :=
  let value := cpu.read_register r
  let new_value := set_bits value 1 (1 <<< b.val)
  cpu.write_register r new_value

/-- opcode.rs `rl_r8` (u8 shift left discards the high bit). -/
def rl_r8 (cpu : Cpu) (r : Register) : Cpu :=
  let register_value := cpu.read_register r
  let result0 := (register_value <<< 1) % 256
  let result := if (cpu.read_flags).carry then result0 ||| 1 else result0
  let cpu := cpu.write_flags
    { zero := some (result == 0)
      subtract := some false
      half_carry := some false
      carry := some (register_value &&& 0x80 != 0) }
  cpu.write_register r result

/-- opcode.rs `rr_r8`. -/
def rr_r8 (cpu : Cpu) (r : Register) : Cpu :=
  let value := cpu.read_register r
  let result0 := value >>> 1
  let result := if (cpu.read_flags).carry then result0 ||| 0x80 else result0
  let cpu := cpu.write_flags
    { zero := some (result == 0)
      subtract := some false
      half_carry := some false
      carry := some (value &&& 1 != 0) }
  cpu.write_register r result

/-- opcode.rs `rst`. -/
def rst (cpu : Cpu) (memory : Memory) (address : Nat) : Cpu × Memory :=
  let pc := cpu.read_register_wide .PC
  let p := u16_to_u8 pc
  let sp := cpu.read_register_wide .SP
  let memory := memory.write ((sp + 65536 - 1) % 65536) p.1
  let memory := memory.write ((sp + 65536 - 2) % 65536) p.2
  let cpu := cpu.write_register_wide .SP ((sp + 65536 - 2) % 65536)
  (cpu.write_register_wide .PC address, memory)

/-- opcode.rs `sub_r8`. -/
def sub_r8 (cpu : Cpu) (r : Register) : Cpu :=
  let a := cpu.read_register .A
  let b := cpu.read_register r
  let result := (a + 256 - b) % 256
  let overflowed := a < b
  let cpu := cpu.write_register .A result
  cpu.write_flags
    { zero := some (result == 0)
      subtract := some true
      half_carry := some (half_carried_sub8 a b)
      carry := some overflowed }

/-- opcode.rs `sbc_r8`. -/
def sbc_r8 (cpu : Cpu) (r : Register) : Cpu :=
  let a := cpu.read_register .A
  let carry_bit := if (cpu.read_flags).carry then 1 else 0
  let b := (cpu.read_register r + carry_bit) % 256
  let result := (a + 256 - b) % 256
  let overflowed := a < b
  let cpu := cpu.write_register .A result
  cpu.write_flags
    { zero := some (result == 0)
      subtract := some true
      half_carry := some (half_carried_sub8 a b)
      carry := some overflowed }

/-- opcode.rs `set_indirect_hl`: writes back `set_bits(value, mask, mask)`. -/
def set_indirect_hl (cpu : Cpu) (memory : Memory) (b : Bit) : Memory :=
  let hl := cpu.read_register_wide .HL
  let value := memory.read hl
  let mask := 1 <<< b.val
  memory.write hl (set_bits value mask mask)

/-- opcode.rs `sla_r8` (the register is written twice in the source; the second
write stores the same value). -/
def sla_r8 (cpu : Cpu) (r : Register) : Cpu :=
  let value := cpu.read_register r
  let result := (value <<< 1) % 256
  let cpu := cpu.write_register r result
  let cpu := cpu.write_flags
    { zero := some (result == 0)
      subtract := some false
      half_carry := some false
      carry := some (bit value 7 != 0) }
  cpu.write_register r result

/-- opcode.rs `srl_r8`. -/
def srl_r8 (cpu : Cpu) (r : Register) : Cpu :=
  let value := cpu.read_register r
  let result := value >>> 1
  let cpu := cpu.write_register r result
  cpu.write_flags
    { zero := some (result == 0)
      subtract := some false
      half_carry := some false
      carry := some (bit value 0 != 0) }

/-- opcode.rs `swap_r8` (`rotate_right(4)` on u8 swaps the nibbles). -/
def swap_r8 (cpu : Cpu) (r : Register) : Cpu :=
  let value := cpu.read_register r
  let result := (value >>> 4) ||| ((value <<< 4) % 256)
  let cpu := cpu.write_register r result
  cpu.write_flags
    { zero := some (result == 0)
      subtract := some false
      half_carry := some false
      carry := some false }

/-- opcode.rs `xor_r8`. -/
def xor_r8 (cpu : Cpu) (register : Register) : Cpu :=
  let a := cpu.read_register .A
  let r := cpu.read_register register
  let result := a ^^^ r
  let cpu := cpu.write_register .A result
  cpu.write_flags
    { zero := some (result == 0)
      subtract := some false
      half_carry := some false
      carry := some false }

set_option maxHeartbeats 1600000 in
/-- Arms 0x00–0x3F of opcode.rs `decode` (the unprefixed table); any byte in the range that has no
arm falls to the Rust wildcard and decodes to `none`. -/
def decode_00_3f (byte : Nat) : Option Opcode :=
  match byte with
  | 0x00 => some ⟨"NOP", 1, some fun cpu mem => (cpu, mem)⟩
  | 0x01 => some ⟨"LD BC, n16", 3, some fun cpu mem => (ld_r16_n16 cpu mem .BC, mem)⟩
  | 0x02 => some ⟨"LD [BC], A", 1, some fun cpu mem => ld_indirect_r16_r8 cpu mem .BC .A .Retain⟩
  | 0x03 => some ⟨"INC BC", 1, some fun cpu mem => (inc_r16 cpu .BC, mem)⟩
  | 0x04 => some ⟨"INC B", 1, some fun cpu mem => (inc_r8 cpu .B, mem)⟩
  | 0x05 => some ⟨"DEC B", 1, some fun cpu mem => (dec_r8 cpu .B, mem)⟩
  | 0x06 => some ⟨"LD B, n8", 2, some fun cpu mem => (ld_r8_n8 cpu mem .B, mem)⟩
  | 0x07 => some ⟨"RLCA", 1, some fun cpu mem =>
      let value := cpu.read_register .A
      let result := ((value <<< 1) % 256) ||| (value >>> 7)
      let cpu := cpu.write_flags
        { zero := some false, subtract := some false, half_carry := some false
          carry := some (value &&& 0x80 != 0) }
      (cpu.write_register .A result, mem)⟩
  | 0x08 => some ⟨"LD [a16], SP", 3, some fun cpu mem =>
      let pc := cpu.read_register_wide .PC
      let lsb := mem.read ((pc + 65536 - 2) % 65536)
      let msb := mem.read ((pc + 65536 - 1) % 65536)
      let address := u8_to_u16 msb lsb
      let sp := cpu.read_register_wide .SP
      let p := u16_to_u8 sp
      let mem := mem.write address p.2
      (cpu, mem.write ((address + 1) % 65536) p.1)⟩
  | 0x09 => some ⟨"ADD HL, BC", 1, some fun cpu mem => (add_hl_r16 cpu .BC, mem)⟩
  | 0x0A => some ⟨"LD A, [BC]", 1, some fun cpu mem => (ld_r8_indirect_r16 cpu mem .A .BC .Retain, mem)⟩
  | 0x0B => some ⟨"DEC BC", 1, some fun cpu mem => (dec_r16 cpu .BC, mem)⟩
  | 0x0C => some ⟨"INC C", 1, some fun cpu mem => (inc_r8 cpu .C, mem)⟩
  | 0x0D => some ⟨"DEC C", 1, some fun cpu mem => (dec_r8 cpu .C, mem)⟩
  | 0x0E => some ⟨"LD C, n8", 2, some fun cpu mem => (ld_r8_n8 cpu mem .C, mem)⟩
  | 0x0F => some ⟨"RRCA ", 1, none⟩
  | 0x10 => some ⟨"STOP n8", 2, some fun cpu mem => (cpu, mem)⟩
  | 0x11 => some ⟨"LD DE, n16", 3, some fun cpu mem => (ld_r16_n16 cpu mem .DE, mem)⟩
  | 0x12 => some ⟨"LD [DE], A", 1, some fun cpu mem => ld_indirect_r16_r8 cpu mem .DE .A .Retain⟩
  | 0x13 => some ⟨"INC DE", 1, some fun cpu mem => (inc_r16 cpu .DE, mem)⟩
  | 0x14 => some ⟨"INC D", 1, some fun cpu mem => (inc_r8 cpu .D, mem)⟩
  | 0x15 => some ⟨"DEC D", 1, some fun cpu mem => (dec_r8 cpu .D, mem)⟩
  | 0x16 => some ⟨"LD D, n8", 2, some fun cpu mem => (ld_r8_n8 cpu mem .D, mem)⟩
  | 0x17 => some ⟨"RLA", 1, some fun cpu mem =>
      let value := cpu.read_register .A
      let result0 := (value <<< 1) % 256
      let result := if (cpu.read_flags).carry then result0 ||| 1 else result0
      let cpu := cpu.write_flags
        { zero := some false, subtract := some false, half_carry := some false
          carry := some (value &&& 0x80 != 0) }
      (cpu.write_register .A result, mem)⟩
  | 0x18 => some ⟨"JR e8", 2, some fun cpu mem => (jump_relative cpu mem, mem)⟩
  | 0x19 => some ⟨"ADD HL, DE", 1, some fun cpu mem => (add_hl_r16 cpu .DE, mem)⟩
  | 0x1A => some ⟨"LD A, [DE]", 1, some fun cpu mem => (ld_r8_indirect_r16 cpu mem .A .DE .Retain, mem)⟩
  | 0x1B => some ⟨"DEC DE", 1, some fun cpu mem => (dec_r16 cpu .DE, mem)⟩
  | 0x1C => some ⟨"INC E", 1, some fun cpu mem => (inc_r8 cpu .E, mem)⟩
  | 0x1D => some ⟨"DEC E", 1, some fun cpu mem => (dec_r8 cpu .E, mem)⟩
  | 0x1E => some ⟨"LD E, n8", 2, some fun cpu mem => (ld_r8_n8 cpu mem .E, mem)⟩
  | 0x1F => some ⟨"RRA ", 1, some fun cpu mem =>
      let value := cpu.read_register .A
      let result0 := value >>> 1
      let result := if (cpu.read_flags).carry then result0 ||| 0x80 else result0
      let cpu := cpu.write_flags
        { zero := some false, subtract := some false, half_carry := some false
          carry := some (value &&& 1 != 0) }
      (cpu.write_register .A result, mem)⟩
  | 0x20 => some ⟨"JR NZ, e8", 2, some fun cpu mem =>
      (if !(cpu.read_flags).zero then jump_relative cpu mem else cpu, mem)⟩
  | 0x21 => some ⟨"LD HL, n16", 3, some fun cpu mem => (ld_r16_n16 cpu mem .HL, mem)⟩
  | 0x22 => some ⟨"LD [HL+], A", 1, some fun cpu mem => ld_indirect_r16_r8 cpu mem .HL .A .Increment⟩
  | 0x23 => some ⟨"INC HL", 1, some fun cpu mem => (inc_r16 cpu .HL, mem)⟩
  | 0x24 => some ⟨"INC H", 1, some fun cpu mem => (inc_r8 cpu .H, mem)⟩
  | 0x25 => some ⟨"DEC H", 1, some fun cpu mem => (dec_r8 cpu .H, mem)⟩
  | 0x26 => some ⟨"LD H, n8", 2, some fun cpu mem => (ld_r8_n8 cpu mem .H, mem)⟩
  | 0x27 => some ⟨"DAA ", 1, none⟩
  | 0x28 => some ⟨"JR Z, e8", 2, some fun cpu mem =>
      (if !(cpu.read_flags).zero then cpu else jump_relative cpu mem, mem)⟩
  | 0x29 => some ⟨"ADD HL, HL", 1, some fun cpu mem => (add_hl_r16 cpu .HL, mem)⟩
  | 0x2A => some ⟨"LD A, [HL+]", 1, some fun cpu mem => (ld_r8_indirect_r16 cpu mem .A .HL .Increment, mem)⟩
  | 0x2B => some ⟨"DEC HL", 1, some fun cpu mem => (dec_r16 cpu .HL, mem)⟩
  | 0x2C => some ⟨"INC L", 1, some fun cpu mem => (inc_r8 cpu .L, mem)⟩
  | 0x2D => some ⟨"DEC L", 1, some fun cpu mem => (dec_r8 cpu .L, mem)⟩
  | 0x2E => some ⟨"LD L, n8", 2, some fun cpu mem => (ld_r8_n8 cpu mem .L, mem)⟩
  | 0x2F => some ⟨"CPL ", 1, some fun cpu mem =>
      let a := cpu.read_register .A
      let cpu := cpu.write_register .A (a ^^^ 0xFF)
      (cpu.write_flags { subtract := some true, half_carry := some true }, mem)⟩
  | 0x30 => some ⟨"JR NC, e8", 2, some fun cpu mem =>
      (if (cpu.read_flags).carry then cpu else jump_relative cpu mem, mem)⟩
  | 0x31 => some ⟨"LD SP, n16", 3, some fun cpu mem => (ld_r16_n16 cpu mem .SP, mem)⟩
  | 0x32 => some ⟨"LD [HL-], A", 1, some fun cpu mem => ld_indirect_r16_r8 cpu mem .HL .A .Decrement⟩
  | 0x33 => some ⟨"INC SP", 1, some fun cpu mem => (inc_r16 cpu .SP, mem)⟩
  | 0x34 => some ⟨"INC [HL]", 1, some fun cpu mem =>
      let hl := cpu.read_register_wide .HL
      let value := mem.read hl
      let result := (value + 1) % 256
      let mem := mem.write hl result
      (cpu.write_flags
        { zero := some (result == 0), subtract := some false
          half_carry := some (half_carried_add8 value 1), carry := none }, mem)⟩
  | 0x35 => some ⟨"DEC [HL]", 1, some fun cpu mem =>
      let hl := cpu.read_register_wide .HL
      let value := mem.read hl
      let result := (value + 256 - 1) % 256
      let mem := mem.write hl result
      (cpu.write_flags
        { zero := some (result == 0), subtract := some true
          half_carry := some (half_carried_sub8 value 1), carry := none }, mem)⟩
  | 0x36 => some ⟨"LD [HL], n8", 2, some fun cpu mem =>
      let pc := cpu.read_register_wide .SP
      let dst_value := cpu.read_register_wide .HL
      let src_value := mem.read ((pc + 65536 - 1) % 65536)
      (cpu, mem.write dst_value src_value)⟩
  | 0x37 => some ⟨"SCF ", 1, none⟩
  | 0x38 => some ⟨"JR C, e8", 2, some fun cpu mem =>
      (if !(cpu.read_flags).carry then cpu else jump_relative cpu mem, mem)⟩
  | 0x39 => some ⟨"ADD HL, SP", 1, some fun cpu mem => (add_hl_r16 cpu .SP, mem)⟩
  | 0x3A => some ⟨"LD A, [HL-]", 1, some fun cpu mem => (ld_r8_indirect_r16 cpu mem .A .HL .Decrement, mem)⟩
  | 0x3B => some ⟨"DEC SP", 1, some fun cpu mem => (dec_r16 cpu .SP, mem)⟩
  | 0x3C => some ⟨"INC A", 1, some fun cpu mem => (inc_r8 cpu .A, mem)⟩
  | 0x3D => some ⟨"DEC A", 1, some fun cpu mem => (dec_r8 cpu .A, mem)⟩
  | 0x3E => some ⟨"LD A, n8", 2, some fun cpu mem => (ld_r8_n8 cpu mem .A, mem)⟩
  | 0x3F => some ⟨"CCF ", 1, none⟩
  | _ => none

set_option maxHeartbeats 1600000 in
/-- Arms 0x40–0x7F of opcode.rs `decode` (the unprefixed table); any byte in the range that has no
arm falls to the Rust wildcard and decodes to `none`. -/
def decode_40_7f (byte : Nat) : Option Opcode :=
  match byte with
  | 0x40 => some ⟨"LD B, B", 1, some fun cpu mem => (ld_r8_r8 cpu .B .B, mem)⟩
  | 0x41 => some ⟨"LD B, C", 1, some fun cpu mem => (ld_r8_r8 cpu .B .C, mem)⟩
  | 0x42 => some ⟨"LD B, D", 1, some fun cpu mem => (ld_r8_r8 cpu .B .D, mem)⟩
  | 0x43 => some ⟨"LD B, E", 1, some fun cpu mem => (ld_r8_r8 cpu .B .E, mem)⟩
  | 0x44 => some ⟨"LD B, H", 1, some fun cpu mem => (ld_r8_r8 cpu .B .H, mem)⟩
  | 0x45 => some ⟨"LD B, L", 1, some fun cpu mem => (ld_r8_r8 cpu .B .L, mem)⟩
  | 0x46 => some ⟨"LD B, [HL]", 1, some fun cpu mem => (ld_r8_indirect_r16 cpu mem .B .HL .Retain, mem)⟩
  | 0x47 => some ⟨"LD B, A", 1, some fun cpu mem => (ld_r8_r8 cpu .B .A, mem)⟩
  | 0x48 => some ⟨"LD C, B", 1, some fun cpu mem => (ld_r8_r8 cpu .C .B, mem)⟩
  | 0x49 => some ⟨"LD C, C", 1, some fun cpu mem => (ld_r8_r8 cpu .C .C, mem)⟩
  | 0x4A => some ⟨"LD C, D", 1, some fun cpu mem => (ld_r8_r8 cpu .C .D, mem)⟩
  | 0x4B => some ⟨"LD C, E", 1, some fun cpu mem => (ld_r8_r8 cpu .C .E, mem)⟩
  | 0x4C => some ⟨"LD C, H", 1, some fun cpu mem => (ld_r8_r8 cpu .C .H, mem)⟩
  | 0x4D => some ⟨"LD C, L", 1, some fun cpu mem => (ld_r8_r8 cpu .C .L, mem)⟩
  | 0x4E => some ⟨"LD C, [HL]", 1, some fun cpu mem => (ld_r8_indirect_r16 cpu mem .C .HL .Retain, mem)⟩
  | 0x4F => some ⟨"LD C, A", 1, some fun cpu mem => (ld_r8_r8 cpu .C .A, mem)⟩
  | 0x50 => some ⟨"LD D, B", 1, some fun cpu mem => (ld_r8_r8 cpu .D .B, mem)⟩
  | 0x51 => some ⟨"LD D, C", 1, some fun cpu mem => (ld_r8_r8 cpu .D .C, mem)⟩
  | 0x52 => some ⟨"LD D, D", 1, some fun cpu mem => (ld_r8_r8 cpu .D .D, mem)⟩
  | 0x53 => some ⟨"LD D, E", 1, some fun cpu mem => (ld_r8_r8 cpu .D .E, mem)⟩
  | 0x54 => some ⟨"LD D, H", 1, some fun cpu mem => (ld_r8_r8 cpu .D .H, mem)⟩
  | 0x55 => some ⟨"LD D, L", 1, some fun cpu mem => (ld_r8_r8 cpu .D .L, mem)⟩
  | 0x56 => some ⟨"LD D, [HL]", 1, some fun cpu mem => (ld_r8_indirect_r16 cpu mem .D .HL .Retain, mem)⟩
  | 0x57 => some ⟨"LD D, A", 1, some fun cpu mem => (ld_r8_r8 cpu .D .A, mem)⟩
  | 0x58 => some ⟨"LD E, B", 1, some fun cpu mem => (ld_r8_r8 cpu .E .B, mem)⟩
  | 0x59 => some ⟨"LD E, C", 1, some fun cpu mem => (ld_r8_r8 cpu .E .C, mem)⟩
  | 0x5A => some ⟨"LD E, D", 1, some fun cpu mem => (ld_r8_r8 cpu .E .D, mem)⟩
  | 0x5B => some ⟨"LD E, E", 1, some fun cpu mem => (ld_r8_r8 cpu .E .E, mem)⟩
  | 0x5C => some ⟨"LD E, H", 1, some fun cpu mem => (ld_r8_r8 cpu .E .H, mem)⟩
  | 0x5D => some ⟨"LD E, L", 1, some fun cpu mem => (ld_r8_r8 cpu .E .L, mem)⟩
  | 0x5E => some ⟨"LD E, [HL]", 1, some fun cpu mem => (ld_r8_indirect_r16 cpu mem .E .HL .Retain, mem)⟩
  | 0x5F => some ⟨"LD E, A", 1, some fun cpu mem => (ld_r8_r8 cpu .E .A, mem)⟩
  | 0x60 => some ⟨"LD H, B", 1, some fun cpu mem => (ld_r8_r8 cpu .H .B, mem)⟩
  | 0x61 => some ⟨"LD H, C", 1, some fun cpu mem => (ld_r8_r8 cpu .H .C, mem)⟩
  | 0x62 => some ⟨"LD H, D", 1, some fun cpu mem => (ld_r8_r8 cpu .H .D, mem)⟩
  | 0x63 => some ⟨"LD H, E", 1, some fun cpu mem => (ld_r8_r8 cpu .H .E, mem)⟩
  | 0x64 => some ⟨"LD H, H", 1, some fun cpu mem => (ld_r8_r8 cpu .H .H, mem)⟩
  | 0x65 => some ⟨"LD H, L", 1, some fun cpu mem => (ld_r8_r8 cpu .H .L, mem)⟩
  | 0x66 => some ⟨"LD H, [HL]", 1, some fun cpu mem => (ld_r8_indirect_r16 cpu mem .H .HL .Retain, mem)⟩
  | 0x67 => some ⟨"LD H, A", 1, some fun cpu mem => (ld_r8_r8 cpu .H .A, mem)⟩
  | 0x68 => some ⟨"LD L, B", 1, some fun cpu mem => (ld_r8_r8 cpu .L .B, mem)⟩
  | 0x69 => some ⟨"LD L, C", 1, some fun cpu mem => (ld_r8_r8 cpu .L .C, mem)⟩
  | 0x6A => some ⟨"LD L, D", 1, some fun cpu mem => (ld_r8_r8 cpu .L .D, mem)⟩
  | 0x6B => some ⟨"LD L, E", 1, some fun cpu mem => (ld_r8_r8 cpu .L .E, mem)⟩
  | 0x6C => some ⟨"LD L, H", 1, some fun cpu mem => (ld_r8_r8 cpu .L .H, mem)⟩
  | 0x6D => some ⟨"LD L, L", 1, some fun cpu mem => (ld_r8_r8 cpu .L .L, mem)⟩
  | 0x6E => some ⟨"LD L, [HL]", 1, some fun cpu mem => (ld_r8_indirect_r16 cpu mem .L .HL .Retain, mem)⟩
  | 0x6F => some ⟨"LD L, A", 1, some fun cpu mem => (ld_r8_r8 cpu .L .A, mem)⟩
  | 0x70 => some ⟨"LD [HL], B", 1, some fun cpu mem => ld_indirect_r16_r8 cpu mem .HL .B .Retain⟩
  | 0x71 => some ⟨"LD [HL], C", 1, some fun cpu mem => ld_indirect_r16_r8 cpu mem .HL .C .Retain⟩
  | 0x72 => some ⟨"LD [HL], D", 1, some fun cpu mem => ld_indirect_r16_r8 cpu mem .HL .D .Retain⟩
  | 0x73 => some ⟨"LD [HL], E", 1, some fun cpu mem => ld_indirect_r16_r8 cpu mem .HL .E .Retain⟩
  | 0x74 => some ⟨"LD [HL], H", 1, some fun cpu mem => ld_indirect_r16_r8 cpu mem .HL .H .Retain⟩
  | 0x75 => some ⟨"LD [HL], L", 1, some fun cpu mem => ld_indirect_r16_r8 cpu mem .HL .L .Retain⟩
  | 0x76 => some ⟨"HALT ", 1, none⟩
  | 0x77 => some ⟨"LD [HL], A", 1, some fun cpu mem => ld_indirect_r16_r8 cpu mem .HL .A .Retain⟩
  | 0x78 => some ⟨"LD A, B", 1, some fun cpu mem => (ld_r8_r8 cpu .A .B, mem)⟩
  | 0x79 => some ⟨"LD A, C", 1, some fun cpu mem => (ld_r8_r8 cpu .A .C, mem)⟩
  | 0x7A => some ⟨"LD A, D", 1, some fun cpu mem => (ld_r8_r8 cpu .A .D, mem)⟩
  | 0x7B => some ⟨"LD A, E", 1, some fun cpu mem => (ld_r8_r8 cpu .A .E, mem)⟩
  | 0x7C => some ⟨"LD A, H", 1, some fun cpu mem => (ld_r8_r8 cpu .A .H, mem)⟩
  | 0x7D => some ⟨"LD A, L", 1, some fun cpu mem => (ld_r8_r8 cpu .A .L, mem)⟩
  | 0x7E => some ⟨"LD A, [HL]", 1, some fun cpu mem => (ld_r8_indirect_r16 cpu mem .A .HL .Retain, mem)⟩
  | 0x7F => some ⟨"LD A, A", 1, some fun cpu mem => (ld_r8_r8 cpu .A .A, mem)⟩
  | _ => none

set_option maxHeartbeats 1600000 in
/-- Arms 0x80–0xBF of opcode.rs `decode` (the unprefixed table); any byte in the range that has no
arm falls to the Rust wildcard and decodes to `none`. -/
def decode_80_bf (byte : Nat) : Option Opcode :=
  match byte with
  | 0x80 => some ⟨"ADD A, B", 1, some fun cpu mem => (add_r8 cpu .B, mem)⟩
  | 0x81 => some ⟨"ADD A, C", 1, some fun cpu mem => (add_r8 cpu .C, mem)⟩
  | 0x82 => some ⟨"ADD A, D", 1, some fun cpu mem => (add_r8 cpu .D, mem)⟩
  | 0x83 => some ⟨"ADD A, E", 1, some fun cpu mem => (add_r8 cpu .E, mem)⟩
  | 0x84 => some ⟨"ADD A, H", 1, some fun cpu mem => (add_r8 cpu .H, mem)⟩
  | 0x85 => some ⟨"ADD A, L", 1, some fun cpu mem => (add_r8 cpu .L, mem)⟩
  | 0x86 => some ⟨"ADD A, [HL]", 1, some fun cpu mem =>
      let a := cpu.read_register .A
      let hl := cpu.read_register_wide .HL
      let b := mem.read hl
      let result := (a + b) % 256
      let overflowed := 256 ≤ a + b
      let cpu := cpu.write_register .A result
      (cpu.write_flags
        { zero := some (result == 0), subtract := some false
          half_carry := some (half_carried_add8 a b), carry := some overflowed }, mem)⟩
  | 0x87 => some ⟨"ADD A, A", 1, some fun cpu mem => (add_r8 cpu .A, mem)⟩
  | 0x88 => some ⟨"ADC A, B", 1, some fun cpu mem => (adc_r8 cpu .B, mem)⟩
  | 0x89 => some ⟨"ADC A, C", 1, some fun cpu mem => (adc_r8 cpu .C, mem)⟩
  | 0x8A => some ⟨"ADC A, D", 1, some fun cpu mem => (adc_r8 cpu .D, mem)⟩
  | 0x8B => some ⟨"ADC A, E", 1, some fun cpu mem => (adc_r8 cpu .E, mem)⟩
  | 0x8C => some ⟨"ADC A, H", 1, some fun cpu mem => (adc_r8 cpu .H, mem)⟩
  | 0x8D => some ⟨"ADC A, L", 1, some fun cpu mem => (adc_r8 cpu .L, mem)⟩
  | 0x8E => some ⟨"ADC A, [HL]", 1, some fun cpu mem =>
      let a := cpu.read_register .A
      let carry_bit := if (cpu.read_flags).carry then 1 else 0
      let hl := cpu.read_register_wide .HL
      let hl_value := mem.read hl
      let b := (hl_value + carry_bit) % 256
      let result0 := (a + b) % 256
      let overflowed0 := 256 ≤ a + b
      let result := if (cpu.read_flags).carry then (result0 + 1) % 256 else result0
      let overflowed :=
        if (cpu.read_flags).carry then (overflowed0 || (256 ≤ result0 + 1)) else overflowed0
      let cpu := cpu.write_register .A result
      (cpu.write_flags
        { zero := some (result == 0), subtract := some false
          half_carry := some (half_carried_add8 a b), carry := some overflowed }, mem)⟩
  | 0x8F => some ⟨"ADC A, A", 1, some fun cpu mem => (adc_r8 cpu .A, mem)⟩
  | 0x90 => some ⟨"SUB A, B", 1, some fun cpu mem => (sub_r8 cpu .B, mem)⟩
  | 0x91 => some ⟨"SUB A, C", 1, some fun cpu mem => (sub_r8 cpu .C, mem)⟩
  | 0x92 => some ⟨"SUB A, D", 1, some fun cpu mem => (sub_r8 cpu .D, mem)⟩
  | 0x93 => some ⟨"SUB A, E", 1, some fun cpu mem => (sub_r8 cpu .E, mem)⟩
  | 0x94 => some ⟨"SUB A, H", 1, some fun cpu mem => (sub_r8 cpu .H, mem)⟩
  | 0x95 => some ⟨"SUB A, L", 1, some fun cpu mem => (sub_r8 cpu .L, mem)⟩
  | 0x96 => some ⟨"SUB A, [HL]", 1, none⟩
  | 0x97 => some ⟨"SUB A, A", 1, some fun cpu mem => (sub_r8 cpu .A, mem)⟩
  | 0x98 => some ⟨"SBC A, B", 1, some fun cpu mem => (sbc_r8 cpu .B, mem)⟩
  | 0x99 => some ⟨"SBC A, C", 1, some fun cpu mem => (sbc_r8 cpu .C, mem)⟩
  | 0x9A => some ⟨"SBC A, D", 1, some fun cpu mem => (sbc_r8 cpu .D, mem)⟩
  | 0x9B => some ⟨"SBC A, E", 1, some fun cpu mem => (sbc_r8 cpu .E, mem)⟩
  | 0x9C => some ⟨"SBC A, H", 1, some fun cpu mem => (sbc_r8 cpu .H, mem)⟩
  | 0x9D => some ⟨"SBC A, L", 1, some fun cpu mem => (sbc_r8 cpu .L, mem)⟩
  | 0x9E => some ⟨"SBC A, [HL]", 1, none⟩
  | 0x9F => some ⟨"SBC A, A", 1, some fun cpu mem => (sbc_r8 cpu .A, mem)⟩
  | 0xA0 => some ⟨"AND A, B", 1, some fun cpu mem => (and_r8 cpu .B, mem)⟩
  | 0xA1 => some ⟨"AND A, C", 1, some fun cpu mem => (and_r8 cpu .C, mem)⟩
  | 0xA2 => some ⟨"AND A, D", 1, some fun cpu mem => (and_r8 cpu .D, mem)⟩
  | 0xA3 => some ⟨"AND A, E", 1, some fun cpu mem => (and_r8 cpu .E, mem)⟩
  | 0xA4 => some ⟨"AND A, H", 1, some fun cpu mem => (and_r8 cpu .H, mem)⟩
  | 0xA5 => some ⟨"AND A, L", 1, some fun cpu mem => (and_r8 cpu .L, mem)⟩
  | 0xA6 => some ⟨"AND A, [HL]", 1, none⟩
  | 0xA7 => some ⟨"AND A, A", 1, some fun cpu mem => (and_r8 cpu .A, mem)⟩
  | 0xA8 => some ⟨"XOR A, B", 1, some fun cpu mem => (xor_r8 cpu .B, mem)⟩
  | 0xA9 => some ⟨"XOR A, C", 1, some fun cpu mem => (xor_r8 cpu .C, mem)⟩
  | 0xAA => some ⟨"XOR A, D", 1, some fun cpu mem => (xor_r8 cpu .D, mem)⟩
  | 0xAB => some ⟨"XOR A, E", 1, some fun cpu mem => (xor_r8 cpu .E, mem)⟩
  | 0xAC => some ⟨"XOR A, H", 1, some fun cpu mem => (xor_r8 cpu .H, mem)⟩
  | 0xAD => some ⟨"XOR A, L", 1, some fun cpu mem => (xor_r8 cpu .L, mem)⟩
  | 0xAE => some ⟨"XOR A, [HL]", 1, some fun cpu mem =>
      let a := cpu.read_register .A
      let hl := cpu.read_register_wide .HL
      let value := mem.read hl
      let result := a ^^^ value
      let cpu := cpu.write_register .A result
      (cpu.write_flags
        { zero := some (result == 0), subtract := some false
          half_carry := some false, carry := some false }, mem)⟩
  | 0xAF => some ⟨"XOR A, A", 1, some fun cpu mem => (xor_r8 cpu .A, mem)⟩
  | 0xB0 => some ⟨"OR A, B", 1, some fun cpu mem => (or_r8 cpu .B, mem)⟩
  | 0xB1 => some ⟨"OR A, C", 1, some fun cpu mem => (or_r8 cpu .C, mem)⟩
  | 0xB2 => some ⟨"OR A, D", 1, some fun cpu mem => (or_r8 cpu .D, mem)⟩
  | 0xB3 => some ⟨"OR A, E", 1, some fun cpu mem => (or_r8 cpu .E, mem)⟩
  | 0xB4 => some ⟨"OR A, H", 1, some fun cpu mem => (or_r8 cpu .H, mem)⟩
  | 0xB5 => some ⟨"OR A, L", 1, some fun cpu mem => (or_r8 cpu .L, mem)⟩
  | 0xB6 => some ⟨"OR A, [HL]", 1, some fun cpu mem =>
      let a := cpu.read_register .A
      let hl := cpu.read_register_wide .HL
      let b := mem.read hl
      let result := a ||| b
      let cpu := cpu.write_register .A result
      (cpu.write_flags
        { zero := some (result == 0), subtract := some false
          half_carry := some false, carry := some false }, mem)⟩
  | 0xB7 => some ⟨"OR A, A", 1, some fun cpu mem => (or_r8 cpu .A, mem)⟩
  | 0xB8 => some ⟨"CP A, B", 1, some fun cpu mem => (cp_r8 cpu .B, mem)⟩
  | 0xB9 => some ⟨"CP A, C", 1, some fun cpu mem => (cp_r8 cpu .C, mem)⟩
  | 0xBA => some ⟨"CP A, D", 1, some fun cpu mem => (cp_r8 cpu .D, mem)⟩
  | 0xBB => some ⟨"CP A, E", 1, some fun cpu mem => (cp_r8 cpu .E, mem)⟩
  | 0xBC => some ⟨"CP A, H", 1, some fun cpu mem => (cp_r8 cpu .H, mem)⟩
  | 0xBD => some ⟨"CP A, L", 1, some fun cpu mem => (cp_r8 cpu .L, mem)⟩
  | 0xBE => some ⟨"CP A, [HL]", 1, some fun cpu mem =>
      let a := cpu.read_register .A
      let hl := cpu.read_register_wide .HL
      let b := mem.read hl
      let result := (a + 256 - b) % 256
      let overflowed := a < b
      (cpu.write_flags
        { zero := some (result == 0), subtract := some true
          half_carry := some (half_carried_sub8 a b), carry := some overflowed }, mem)⟩
  | 0xBF => some ⟨"CP A, A", 1, some fun cpu mem => (cp_r8 cpu .A, mem)⟩
  | _ => none

set_option maxHeartbeats 1600000 in
/-- Arms 0xC0–0xFF of opcode.rs `decode` (the unprefixed table); any byte in the range that has no
arm falls to the Rust wildcard and decodes to `none`. -/
def decode_c0_ff (byte : Nat) : Option Opcode :=
  match byte with
  | 0xC0 => some ⟨"RET NZ", 1, some fun cpu mem =>
      (if (cpu.read_flags).zero then cpu else pop cpu mem .PC, mem)⟩
  | 0xC1 => some ⟨"POP BC", 1, some fun cpu mem => (pop cpu mem .BC, mem)⟩
  | 0xC2 => some ⟨"JP NZ, a16", 3, some fun cpu mem =>
      (if (cpu.read_flags).zero then cpu else jump cpu mem, mem)⟩
  | 0xC3 => some ⟨"JP a16", 3, some fun cpu mem =>
      let pc := cpu.read_register_wide .PC
      let msb := mem.read ((pc + 65536 - 1) % 65536)
      let lsb := mem.read ((pc + 65536 - 2) % 65536)
      (cpu.write_register_wide .PC (u8_to_u16 msb lsb), mem)⟩
  | 0xC4 => some ⟨"CALL NZ, a16", 3, some fun cpu mem =>
      if (cpu.read_flags).zero then (cpu, mem) else call_a16 cpu mem⟩
  | 0xC5 => some ⟨"PUSH BC", 1, some fun cpu mem => push cpu mem .BC⟩
  | 0xC6 => some ⟨"ADD A, n8", 2, some fun cpu mem =>
      let a := cpu.read_register .A
      let pc := cpu.read_register_wide .PC
      let imm := mem.read ((pc + 65536 - 1) % 65536)
      let result := (a + imm) % 256
      let overflowed := 256 ≤ a + imm
      let cpu := cpu.write_register .A result
      (cpu.write_flags
        { zero := some (result == 0), subtract := some false
          half_carry := some (half_carried_add8 a imm), carry := some overflowed }, mem)⟩
  | 0xC7 => some ⟨"RST $00", 1, some fun cpu mem => rst cpu mem 0x00⟩
  | 0xC8 => some ⟨"RET Z", 1, some fun cpu mem =>
      (if !(cpu.read_flags).zero then cpu else pop cpu mem .PC, mem)⟩
  | 0xC9 => some ⟨"RET", 1, some fun cpu mem => (pop cpu mem .PC, mem)⟩
  | 0xCA => some ⟨"JP Z, a16", 3, some fun cpu mem =>
      (if !(cpu.read_flags).zero then cpu else jump cpu mem, mem)⟩
  | 0xCB => some ⟨"PREFIX", 1, some fun cpu mem => (cpu, mem)⟩
  | 0xCC => some ⟨"CALL Z, a16", 3, some fun cpu mem =>
      if !(cpu.read_flags).zero then (cpu, mem) else call_a16 cpu mem⟩
  | 0xCD => some ⟨"CALL a16", 3, some fun cpu mem => call_a16 cpu mem⟩
  | 0xCE => some ⟨"ADC A, n8", 2, some fun cpu mem =>
      let a := cpu.read_register .A
      let pc := cpu.read_register_wide .PC
      let n := mem.read ((pc + 65536 - 1) % 65536)
      let result0 := (a + n) % 256
      let overflowed0 := 256 ≤ a + n
      let half_carried0 := half_carried_add8 a n
      let result := if (cpu.read_flags).carry then (result0 + 1) % 256 else result0
      let overflowed :=
        if (cpu.read_flags).carry then (overflowed0 || (256 ≤ result0 + 1)) else overflowed0
      let half_carried :=
        if (cpu.read_flags).carry then half_carried_add8 a (n + 1) else half_carried0
      let cpu := cpu.write_register .A result
      (cpu.write_flags
        { zero := some (result == 0), subtract := some false
          half_carry := some half_carried, carry := some overflowed }, mem)⟩
  | 0xCF => some ⟨"RST $08", 1, some fun cpu mem => rst cpu mem 0x08⟩
  | 0xD0 => some ⟨"RET NC", 1, some fun cpu mem =>
      (if (cpu.read_flags).carry then cpu else pop cpu mem .PC, mem)⟩
  | 0xD1 => some ⟨"POP DE", 1, some fun cpu mem => (pop cpu mem .DE, mem)⟩
  | 0xD2 => some ⟨"JP NC, a16", 3, some fun cpu mem =>
      (if (cpu.read_flags).carry then cpu else jump cpu mem, mem)⟩
  | 0xD4 => some ⟨"CALL NC, a16", 3, some fun cpu mem =>
      if (cpu.read_flags).carry then (cpu, mem) else call_a16 cpu mem⟩
  | 0xD5 => some ⟨"PUSH DE", 1, some fun cpu mem => push cpu mem .DE⟩
  | 0xD6 => some ⟨"SUB A, n8", 2, some fun cpu mem =>
      let a := cpu.read_register .A
      let pc := cpu.read_register_wide .PC
      let imm := mem.read ((pc + 65536 - 1) % 65536)
      let result := (a + 256 - imm) % 256
      let overflowed := a < imm
      let cpu := cpu.write_register .A result
      (cpu.write_flags
        { zero := some (result == 0), subtract := some true
          half_carry := some (half_carried_sub8 a imm), carry := some overflowed }, mem)⟩
  | 0xD7 => some ⟨"RST $10", 1, some fun cpu mem => rst cpu mem 0x10⟩
  | 0xD8 => some ⟨"RET C", 1, some fun cpu mem =>
      (if !(cpu.read_flags).carry then cpu else pop cpu mem .PC, mem)⟩
  | 0xD9 => some ⟨"RETI ", 1, some fun cpu mem =>
      let cpu := cpu.request_ime_enable
      (pop cpu mem .PC, mem)⟩
  | 0xDA => some ⟨"JP C, a16", 3, some fun cpu mem =>
      (if !(cpu.read_flags).carry then cpu else jump cpu mem, mem)⟩
  | 0xDC => some ⟨"CALL C, a16", 3, some fun cpu mem =>
      if !(cpu.read_flags).carry then (cpu, mem) else call_a16 cpu mem⟩
  | 0xDE => some ⟨"SBC A, n8", 2, some fun cpu mem =>
      let a := cpu.read_register .A
      let carry_bit := if (cpu.read_flags).carry then 1 else 0
      let pc := cpu.read_register_wide .PC
      let b := (mem.read pc + carry_bit) % 256
      let result := (a + 256 - b) % 256
      let overflowed := a < b
      let cpu := cpu.write_register .A result
      (cpu.write_flags
        { zero := some (result == 0), subtract := some true
          half_carry := some (half_carried_sub8 a b), carry := some overflowed }, mem)⟩
  | 0xDF => some ⟨"RST $18", 1, some fun cpu mem => rst cpu mem 0x18⟩
  | 0xE0 => some ⟨"LDH [a8], A", 2, some fun cpu mem =>
      let pc := cpu.read_register_wide .PC
      let imm := mem.read ((pc + 65536 - 1) % 65536)
      let address := u8_to_u16 0xFF imm
      (cpu, mem.write address (cpu.read_register .A))⟩
  | 0xE1 => some ⟨"POP HL", 1, some fun cpu mem => (pop cpu mem .HL, mem)⟩
  | 0xE2 => some ⟨"LD [C], A", 1, some fun cpu mem =>
      let a := cpu.read_register .A
      let c := cpu.read_register .C
      (cpu, mem.write (u8_to_u16 0xFF c) a)⟩
  | 0xE5 => some ⟨"PUSH HL", 1, some fun cpu mem => push cpu mem .HL⟩
  | 0xE6 => some ⟨"AND A, n8", 2, some fun cpu mem =>
      let a := cpu.read_register .A
      let pc := cpu.read_register_wide .PC
      let imm := mem.read ((pc + 65536 - 1) % 65536)
      let result := a &&& imm
      let cpu := cpu.write_register .A result
      (cpu.write_flags
        { zero := some (result == 0), subtract := some false
          half_carry := some true, carry := some false }, mem)⟩
  | 0xE7 => some ⟨"RST $20", 1, some fun cpu mem => rst cpu mem 0x20⟩
  | 0xE8 => some ⟨"ADD SP, e8", 2, some fun cpu mem =>
      let pc := cpu.read_register_wide .PC
      let imm := mem.read ((pc + 65536 - 1) % 65536)
      let sp := cpu.read_register_wide .SP
      let half_carried := half_carried_add8 (sp &&& 0xFF) imm
      let carried := 256 ≤ (sp &&& 0xFF) + imm
      let offset := if imm < 128 then imm else imm + 65536 - 256
      let sp := (sp + offset) % 65536
      let cpu := cpu.write_register_wide .SP sp
      (cpu.write_flags
        { zero := some false, subtract := some false
          half_carry := some half_carried, carry := some carried }, mem)⟩
  | 0xE9 => some ⟨"JP HL", 1, some fun cpu mem =>
      (cpu.write_register_wide .PC (cpu.read_register_wide .HL), mem)⟩
  | 0xEA => some ⟨"LD [a16], A", 3, some fun cpu mem =>
      let pc := cpu.read_register_wide .PC
      let lsb := mem.read ((pc + 65536 - 2) % 65536)
      let msb := mem.read ((pc + 65536 - 1) % 65536)
      let address := u8_to_u16 msb lsb
      (cpu, mem.write address (cpu.read_register .A))⟩
  | 0xEE => some ⟨"XOR A, n8", 2, some fun cpu mem =>
      let a := cpu.read_register .A
      let pc := cpu.read_register_wide .PC
      let imm := mem.read ((pc + 65536 - 1) % 65536)
      let result := a ^^^ imm
      let cpu := cpu.write_register .A result
      (cpu.write_flags
        { zero := some (result == 0), subtract := some false
          half_carry := some false, carry := some false }, mem)⟩
  | 0xEF => some ⟨"RST $28", 1, some fun cpu mem => rst cpu mem 0x28⟩
  | 0xF0 => some ⟨"LDH A, [a8]", 2, some fun cpu mem =>
      let pc := cpu.read_register_wide .PC
      let imm := mem.read ((pc + 65536 - 1) % 65536)
      let value := mem.read (u8_to_u16 0xFF imm)
      (cpu.write_register .A value, mem)⟩
  | 0xF1 => some ⟨"POP AF", 1, some fun cpu mem => (pop cpu mem .AF, mem)⟩
  | 0xF2 => some ⟨"LD A, [C]", 1, none⟩
  | 0xF3 => some ⟨"DI", 1, some fun cpu mem => (cpu.request_ime_disable, mem)⟩
  | 0xF5 => some ⟨"PUSH AF", 1, some fun cpu mem => push cpu mem .AF⟩
  | 0xF6 => some ⟨"OR A, n8", 2, some fun cpu mem =>
      let a := cpu.read_register .A
      let pc := cpu.read_register_wide .PC
      let imm := mem.read ((pc + 65536 - 1) % 65536)
      let result := a ||| imm
      let cpu := cpu.write_register .A result
      (cpu.write_flags
        { zero := some (result == 0), subtract := some false
          half_carry := some false, carry := some false }, mem)⟩
  | 0xF7 => some ⟨"RST $30", 1, some fun cpu mem => rst cpu mem 0x30⟩
  | 0xF8 => some ⟨"LD HL, SP + e8", 2, some fun cpu mem =>
      let pc := cpu.read_register_wide .PC
      let imm := mem.read ((pc + 65536 - 1) % 65536)
      let sp := cpu.read_register_wide .SP
      let half_carried := half_carried_add8 (sp &&& 0xFF) imm
      let carried := 256 ≤ (sp &&& 0xFF) + imm
      let offset := if imm < 128 then imm else imm + 65536 - 256
      let sp := (sp + offset) % 65536
      let cpu := cpu.write_register_wide .HL sp
      (cpu.write_flags
        { zero := some false, subtract := some false
          half_carry := some half_carried, carry := some carried }, mem)⟩
  | 0xF9 => some ⟨"LD SP, HL", 1, some fun cpu mem =>
      (cpu.write_register_wide .SP (cpu.read_register_wide .HL), mem)⟩
  | 0xFA => some ⟨"LD A, [a16]", 3, some fun cpu mem =>
      let pc := cpu.read_register_wide .PC
      let lsb := mem.read ((pc + 65536 - 2) % 65536)
      let msb := mem.read ((pc + 65536 - 1) % 65536)
      let value := mem.read (u8_to_u16 msb lsb)
      (cpu.write_register .A value, mem)⟩
  | 0xFB => some ⟨"EI ", 1, some fun cpu mem => (cpu.request_ime_enable, mem)⟩
  | 0xFE => some ⟨"CP A, n8", 2, some fun cpu mem =>
      let a := cpu.read_register .A
      let pc := cpu.read_register_wide .PC
      let imm := mem.read ((pc + 65536 - 1) % 65536)
      let result := (a + 256 - imm) % 256
      let overflowed := a < imm
      (cpu.write_flags
        { zero := some (result == 0), subtract := some true
          half_carry := some (half_carried_sub8 a imm), carry := some overflowed }, mem)⟩
  | 0xFF => some ⟨"RST $38", 1, some fun cpu mem => rst cpu mem 0x38⟩
  | _ => none

/-- opcode.rs `decode`: the unprefixed opcode table.  The single Rust match
is split into four quadrant functions (0x00–0x3F, 0x40–0x7F, 0x80–0xBF,
0xC0–0xFF and above) only because a 246-arm Lean match is infeasible to
elaborate; every arm mirrors its Rust arm one for one, and any byte without
an arm (the Rust wildcard, including everything above 0xFF) decodes to
`none`. -/
def decode (byte : Nat) : Option Opcode :=
  if byte < 0x40 then decode_00_3f byte
  else if byte < 0x80 then decode_40_7f byte
  else if byte < 0xC0 then decode_80_bf byte
  else decode_c0_ff byte

set_option maxHeartbeats 1600000 in
/-- Arms 0x00–0x3F of opcode.rs `decode_prefixed` (the CB-prefixed table); any byte in the range that has no
arm falls to the Rust wildcard and decodes to `none`. -/
def decode_prefixed_00_3f (byte : Nat) : Option Opcode :=
  match byte with
  | 0x00 => some ⟨"RLC B", 1, none⟩
  | 0x01 => some ⟨"RLC C", 1, none⟩
  | 0x02 => some ⟨"RLC D", 1, none⟩
  | 0x03 => some ⟨"RLC E", 1, none⟩
  | 0x04 => some ⟨"RLC H", 1, none⟩
  | 0x05 => some ⟨"RLC L", 1, none⟩
  | 0x06 => some ⟨"RLC [HL]", 1, none⟩
  | 0x07 => some ⟨"RLC A", 1, none⟩
  | 0x08 => some ⟨"RRC B", 1, none⟩
  | 0x09 => some ⟨"RRC C", 1, none⟩
  | 0x0A => some ⟨"RRC D", 1, none⟩
  | 0x0B => some ⟨"RRC E", 1, none⟩
  | 0x0C => some ⟨"RRC H", 1, none⟩
  | 0x0D => some ⟨"RRC L", 1, none⟩
  | 0x0E => some ⟨"RRC [HL]", 1, none⟩
  | 0x0F => some ⟨"RRC A", 1, none⟩
  | 0x10 => some ⟨"RL B", 1, some fun cpu mem => (rl_r8 cpu .B, mem)⟩
  | 0x11 => some ⟨"RL C", 1, some fun cpu mem => (rl_r8 cpu .C, mem)⟩
  | 0x12 => some ⟨"RL D", 1, some fun cpu mem => (rl_r8 cpu .D, mem)⟩
  | 0x13 => some ⟨"RL E", 1, some fun cpu mem => (rl_r8 cpu .E, mem)⟩
  | 0x14 => some ⟨"RL H", 1, some fun cpu mem => (rl_r8 cpu .H, mem)⟩
  | 0x15 => some ⟨"RL L", 1, some fun cpu mem => (rl_r8 cpu .L, mem)⟩
  | 0x16 => some ⟨"RL [HL]", 1, none⟩
  | 0x17 => some ⟨"RL A", 1, some fun cpu mem => (rl_r8 cpu .A, mem)⟩
  | 0x18 => some ⟨"RR B", 1, some fun cpu mem => (rr_r8 cpu .B, mem)⟩
  | 0x19 => some ⟨"RR C", 1, some fun cpu mem => (rr_r8 cpu .C, mem)⟩
  | 0x1A => some ⟨"RR D", 1, some fun cpu mem => (rr_r8 cpu .D, mem)⟩
  | 0x1B => some ⟨"RR E", 1, some fun cpu mem => (rr_r8 cpu .E, mem)⟩
  | 0x1C => some ⟨"RR H", 1, some fun cpu mem => (rr_r8 cpu .H, mem)⟩
  | 0x1D => some ⟨"RR L", 1, some fun cpu mem => (rr_r8 cpu .L, mem)⟩
  | 0x1E => some ⟨"RR [HL]", 1, none⟩
  | 0x1F => some ⟨"RR A", 1, some fun cpu mem => (rr_r8 cpu .A, mem)⟩
  | 0x20 => some ⟨"SLA B", 1, some fun cpu mem => (sla_r8 cpu .B, mem)⟩
  | 0x21 => some ⟨"SLA C", 1, some fun cpu mem => (sla_r8 cpu .C, mem)⟩
  | 0x22 => some ⟨"SLA D", 1, some fun cpu mem => (sla_r8 cpu .D, mem)⟩
  | 0x23 => some ⟨"SLA E", 1, some fun cpu mem => (sla_r8 cpu .E, mem)⟩
  | 0x24 => some ⟨"SLA H", 1, some fun cpu mem => (sla_r8 cpu .H, mem)⟩
  | 0x25 => some ⟨"SLA L", 1, some fun cpu mem => (sla_r8 cpu .L, mem)⟩
  | 0x26 => some ⟨"SLA [HL]", 1, none⟩
  | 0x27 => some ⟨"SLA A", 1, some fun cpu mem => (sla_r8 cpu .A, mem)⟩
  | 0x28 => some ⟨"SRA B", 1, none⟩
  | 0x29 => some ⟨"SRA C", 1, none⟩
  | 0x2A => some ⟨"SRA D", 1, none⟩
  | 0x2B => some ⟨"SRA E", 1, none⟩
  | 0x2C => some ⟨"SRA H", 1, none⟩
  | 0x2D => some ⟨"SRA L", 1, none⟩
  | 0x2E => some ⟨"SRA [HL]", 1, none⟩
  | 0x2F => some ⟨"SRA A", 1, none⟩
  | 0x30 => some ⟨"SWAP B", 1, some fun cpu mem => (swap_r8 cpu .B, mem)⟩
  | 0x31 => some ⟨"SWAP C", 1, some fun cpu mem => (swap_r8 cpu .C, mem)⟩
  | 0x32 => some ⟨"SWAP D", 1, some fun cpu mem => (swap_r8 cpu .D, mem)⟩
  | 0x33 => some ⟨"SWAP E", 1, some fun cpu mem => (swap_r8 cpu .E, mem)⟩
  | 0x34 => some ⟨"SWAP H", 1, some fun cpu mem => (swap_r8 cpu .H, mem)⟩
  | 0x35 => some ⟨"SWAP L", 1, some fun cpu mem => (swap_r8 cpu .L, mem)⟩
  | 0x36 => some ⟨"SWAP [HL]", 1, none⟩
  | 0x37 => some ⟨"SWAP A", 1, some fun cpu mem => (swap_r8 cpu .A, mem)⟩
  | 0x38 => some ⟨"SRL B", 1, some fun cpu mem => (srl_r8 cpu .B, mem)⟩
  | 0x39 => some ⟨"SRL C", 1, some fun cpu mem => (srl_r8 cpu .C, mem)⟩
  | 0x3A => some ⟨"SRL D", 1, some fun cpu mem => (srl_r8 cpu .D, mem)⟩
  | 0x3B => some ⟨"SRL E", 1, some fun cpu mem => (srl_r8 cpu .E, mem)⟩
  | 0x3C => some ⟨"SRL H", 1, some fun cpu mem => (srl_r8 cpu .H, mem)⟩
  | 0x3D => some ⟨"SRL L", 1, some fun cpu mem => (srl_r8 cpu .L, mem)⟩
  | 0x3E => some ⟨"SRL [HL]", 1, none⟩
  | 0x3F => some ⟨"SRL A", 1, some fun cpu mem => (srl_r8 cpu .A, mem)⟩
  | _ => none

set_option maxHeartbeats 1600000 in
/-- Arms 0x40–0x7F of opcode.rs `decode_prefixed` (the CB-prefixed table); any byte in the range that has no
arm falls to the Rust wildcard and decodes to `none`. -/
def decode_prefixed_40_7f (byte : Nat) : Option Opcode :=
  match byte with
  | 0x40 => some ⟨"BIT 0, B", 1, some fun cpu mem => (bit_r8 cpu .Zero .B, mem)⟩
  | 0x41 => some ⟨"BIT 0, C", 1, some fun cpu mem => (bit_r8 cpu .Zero .C, mem)⟩
  | 0x42 => some ⟨"BIT 0, D", 1, some fun cpu mem => (bit_r8 cpu .Zero .D, mem)⟩
  | 0x43 => some ⟨"BIT 0, E", 1, some fun cpu mem => (bit_r8 cpu .Zero .E, mem)⟩
  | 0x44 => some ⟨"BIT 0, H", 1, some fun cpu mem => (bit_r8 cpu .Zero .H, mem)⟩
  | 0x45 => some ⟨"BIT 0, L", 1, some fun cpu mem => (bit_r8 cpu .Zero .L, mem)⟩
  | 0x46 => some ⟨"BIT 0, [HL]", 1, some fun cpu mem => (bit_indirect_hl cpu mem .Zero, mem)⟩
  | 0x47 => some ⟨"BIT 0, A", 1, some fun cpu mem => (bit_r8 cpu .Zero .A, mem)⟩
  | 0x48 => some ⟨"BIT 1, B", 1, some fun cpu mem => (bit_r8 cpu .One .B, mem)⟩
  | 0x49 => some ⟨"BIT 1, C", 1, some fun cpu mem => (bit_r8 cpu .One .C, mem)⟩
  | 0x4A => some ⟨"BIT 1, D", 1, some fun cpu mem => (bit_r8 cpu .One .D, mem)⟩
  | 0x4B => some ⟨"BIT 1, E", 1, some fun cpu mem => (bit_r8 cpu .One .E, mem)⟩
  | 0x4C => some ⟨"BIT 1, H", 1, some fun cpu mem => (bit_r8 cpu .One .H, mem)⟩
  | 0x4D => some ⟨"BIT 1, L", 1, some fun cpu mem => (bit_r8 cpu .One .L, mem)⟩
  | 0x4E => some ⟨"BIT 1, [HL]", 1, some fun cpu mem => (bit_indirect_hl cpu mem .One, mem)⟩
  | 0x4F => some ⟨"BIT 1, A", 1, some fun cpu mem => (bit_r8 cpu .One .A, mem)⟩
  | 0x50 => some ⟨"BIT 2, B", 1, some fun cpu mem => (bit_r8 cpu .Two .B, mem)⟩
  | 0x51 => some ⟨"BIT 2, C", 1, some fun cpu mem => (bit_r8 cpu .Two .C, mem)⟩
  | 0x52 => some ⟨"BIT 2, D", 1, some fun cpu mem => (bit_r8 cpu .Two .D, mem)⟩
  | 0x53 => some ⟨"BIT 2, E", 1, some fun cpu mem => (bit_r8 cpu .Two .E, mem)⟩
  | 0x54 => some ⟨"BIT 2, H", 1, some fun cpu mem => (bit_r8 cpu .Two .H, mem)⟩
  | 0x55 => some ⟨"BIT 2, L", 1, some fun cpu mem => (bit_r8 cpu .Two .L, mem)⟩
  | 0x56 => some ⟨"BIT 2, [HL]", 1, some fun cpu mem => (bit_indirect_hl cpu mem .Two, mem)⟩
  | 0x57 => some ⟨"BIT 2, A", 1, some fun cpu mem => (bit_r8 cpu .Two .A, mem)⟩
  | 0x58 => some ⟨"BIT 3, B", 1, some fun cpu mem => (bit_r8 cpu .Three .B, mem)⟩
  | 0x59 => some ⟨"BIT 3, C", 1, some fun cpu mem => (bit_r8 cpu .Three .C, mem)⟩
  | 0x5A => some ⟨"BIT 3, D", 1, some fun cpu mem => (bit_r8 cpu .Three .D, mem)⟩
  | 0x5B => some ⟨"BIT 3, E", 1, some fun cpu mem => (bit_r8 cpu .Three .E, mem)⟩
  | 0x5C => some ⟨"BIT 3, H", 1, some fun cpu mem => (bit_r8 cpu .Three .H, mem)⟩
  | 0x5D => some ⟨"BIT 3, L", 1, some fun cpu mem => (bit_r8 cpu .Three .L, mem)⟩
  | 0x5E => some ⟨"BIT 3, [HL]", 1, some fun cpu mem => (bit_indirect_hl cpu mem .Three, mem)⟩
  | 0x5F => some ⟨"BIT 3, A", 1, some fun cpu mem => (bit_r8 cpu .Three .A, mem)⟩
  | 0x60 => some ⟨"BIT 4, B", 1, some fun cpu mem => (bit_r8 cpu .Four .B, mem)⟩
  | 0x61 => some ⟨"BIT 4, C", 1, some fun cpu mem => (bit_r8 cpu .Four .C, mem)⟩
  | 0x62 => some ⟨"BIT 4, D", 1, some fun cpu mem => (bit_r8 cpu .Four .D, mem)⟩
  | 0x63 => some ⟨"BIT 4, E", 1, some fun cpu mem => (bit_r8 cpu .Four .E, mem)⟩
  | 0x64 => some ⟨"BIT 4, H", 1, some fun cpu mem => (bit_r8 cpu .Four .H, mem)⟩
  | 0x65 => some ⟨"BIT 4, L", 1, some fun cpu mem => (bit_r8 cpu .Four .L, mem)⟩
  | 0x66 => some ⟨"BIT 4, [HL]", 1, some fun cpu mem => (bit_indirect_hl cpu mem .Four, mem)⟩
  | 0x67 => some ⟨"BIT 4, A", 1, some fun cpu mem => (bit_r8 cpu .Four .A, mem)⟩
  | 0x68 => some ⟨"BIT 5, B", 1, some fun cpu mem => (bit_r8 cpu .Five .B, mem)⟩
  | 0x69 => some ⟨"BIT 5, C", 1, some fun cpu mem => (bit_r8 cpu .Five .C, mem)⟩
  | 0x6A => some ⟨"BIT 5, D", 1, some fun cpu mem => (bit_r8 cpu .Five .D, mem)⟩
  | 0x6B => some ⟨"BIT 5, E", 1, some fun cpu mem => (bit_r8 cpu .Five .E, mem)⟩
  | 0x6C => some ⟨"BIT 5, H", 1, some fun cpu mem => (bit_r8 cpu .Five .H, mem)⟩
  | 0x6D => some ⟨"BIT 5, L", 1, some fun cpu mem => (bit_r8 cpu .Five .L, mem)⟩
  | 0x6E => some ⟨"BIT 5, [HL]", 1, some fun cpu mem => (bit_indirect_hl cpu mem .Five, mem)⟩
  | 0x6F => some ⟨"BIT 5, A", 1, some fun cpu mem => (bit_r8 cpu .Five .A, mem)⟩
  | 0x70 => some ⟨"BIT 6, B", 1, some fun cpu mem => (bit_r8 cpu .Six .B, mem)⟩
  | 0x71 => some ⟨"BIT 6, C", 1, some fun cpu mem => (bit_r8 cpu .Six .C, mem)⟩
  | 0x72 => some ⟨"BIT 6, D", 1, some fun cpu mem => (bit_r8 cpu .Six .D, mem)⟩
  | 0x73 => some ⟨"BIT 6, E", 1, some fun cpu mem => (bit_r8 cpu .Six .E, mem)⟩
  | 0x74 => some ⟨"BIT 6, H", 1, some fun cpu mem => (bit_r8 cpu .Six .H, mem)⟩
  | 0x75 => some ⟨"BIT 6, L", 1, some fun cpu mem => (bit_r8 cpu .Six .L, mem)⟩
  | 0x76 => some ⟨"BIT 6, [HL]", 1, some fun cpu mem => (bit_indirect_hl cpu mem .Six, mem)⟩
  | 0x77 => some ⟨"BIT 6, A", 1, some fun cpu mem => (bit_r8 cpu .Six .A, mem)⟩
  | 0x78 => some ⟨"BIT 7, B", 1, some fun cpu mem => (bit_r8 cpu .Seven .B, mem)⟩
  | 0x79 => some ⟨"BIT 7, C", 1, some fun cpu mem => (bit_r8 cpu .Seven .C, mem)⟩
  | 0x7A => some ⟨"BIT 7, D", 1, some fun cpu mem => (bit_r8 cpu .Seven .D, mem)⟩
  | 0x7B => some ⟨"BIT 7, E", 1, some fun cpu mem => (bit_r8 cpu .Seven .E, mem)⟩
  | 0x7C => some ⟨"BIT 7, H", 1, some fun cpu mem => (bit_r8 cpu .Seven .H, mem)⟩
  | 0x7D => some ⟨"BIT 7, L", 1, some fun cpu mem => (bit_r8 cpu .Seven .L, mem)⟩
  | 0x7E => some ⟨"BIT 7, [HL]", 1, some fun cpu mem => (bit_indirect_hl cpu mem .Seven, mem)⟩
  | 0x7F => some ⟨"BIT 7, A", 1, some fun cpu mem => (bit_r8 cpu .Seven .A, mem)⟩
  | _ => none

set_option maxHeartbeats 1600000 in
/-- Arms 0x80–0xBF of opcode.rs `decode_prefixed` (the CB-prefixed table); any byte in the range that has no
arm falls to the Rust wildcard and decodes to `none`. -/
def decode_prefixed_80_bf (byte : Nat) : Option Opcode :=
  match byte with
  | 0x80 => some ⟨"RES 0, B", 1, some fun cpu mem => (res_r8 cpu .Zero .B, mem)⟩
  | 0x81 => some ⟨"RES 0, C", 1, some fun cpu mem => (res_r8 cpu .Zero .C, mem)⟩
  | 0x82 => some ⟨"RES 0, D", 1, some fun cpu mem => (res_r8 cpu .Zero .D, mem)⟩
  | 0x83 => some ⟨"RES 0, E", 1, some fun cpu mem => (res_r8 cpu .Zero .E, mem)⟩
  | 0x84 => some ⟨"RES 0, H", 1, some fun cpu mem => (res_r8 cpu .Zero .H, mem)⟩
  | 0x85 => some ⟨"RES 0, L", 1, some fun cpu mem => (res_r8 cpu .Zero .L, mem)⟩
  | 0x86 => some ⟨"RES 0, [HL]", 1, some fun cpu mem => (cpu, res_indirect_hl cpu mem .Zero)⟩
  | 0x87 => some ⟨"RES 0, A", 1, some fun cpu mem => (res_r8 cpu .Zero .A, mem)⟩
  | 0x88 => some ⟨"RES 1, B", 1, some fun cpu mem => (res_r8 cpu .One .B, mem)⟩
  | 0x89 => some ⟨"RES 1, C", 1, some fun cpu mem => (res_r8 cpu .One .C, mem)⟩
  | 0x8A => some ⟨"RES 1, D", 1, some fun cpu mem => (res_r8 cpu .One .D, mem)⟩
  | 0x8B => some ⟨"RES 1, E", 1, some fun cpu mem => (res_r8 cpu .One .E, mem)⟩
  | 0x8C => some ⟨"RES 1, H", 1, some fun cpu mem => (res_r8 cpu .One .H, mem)⟩
  | 0x8D => some ⟨"RES 1, L", 1, some fun cpu mem => (res_r8 cpu .One .L, mem)⟩
  | 0x8E => some ⟨"RES 1, [HL]", 1, some fun cpu mem => (cpu, res_indirect_hl cpu mem .One)⟩
  | 0x8F => some ⟨"RES 1, A", 1, some fun cpu mem => (res_r8 cpu .One .A, mem)⟩
  | 0x90 => some ⟨"RES 2, B", 1, some fun cpu mem => (res_r8 cpu .Two .B, mem)⟩
  | 0x91 => some ⟨"RES 2, C", 1, some fun cpu mem => (res_r8 cpu .Two .C, mem)⟩
  | 0x92 => some ⟨"RES 2, D", 1, some fun cpu mem => (res_r8 cpu .Two .D, mem)⟩
  | 0x93 => some ⟨"RES 2, E", 1, some fun cpu mem => (res_r8 cpu .Two .E, mem)⟩
  | 0x94 => some ⟨"RES 2, H", 1, some fun cpu mem => (res_r8 cpu .Two .H, mem)⟩
  | 0x95 => some ⟨"RES 2, L", 1, some fun cpu mem => (res_r8 cpu .Two .L, mem)⟩
  | 0x96 => some ⟨"RES 2, [HL]", 1, some fun cpu mem => (cpu, res_indirect_hl cpu mem .Two)⟩
  | 0x97 => some ⟨"RES 2, A", 1, some fun cpu mem => (res_r8 cpu .Two .A, mem)⟩
  | 0x98 => some ⟨"RES 3, B", 1, some fun cpu mem => (res_r8 cpu .Three .B, mem)⟩
  | 0x99 => some ⟨"RES 3, C", 1, some fun cpu mem => (res_r8 cpu .Three .C, mem)⟩
  | 0x9A => some ⟨"RES 3, D", 1, some fun cpu mem => (res_r8 cpu .Three .D, mem)⟩
  | 0x9B => some ⟨"RES 3, E", 1, some fun cpu mem => (res_r8 cpu .Three .E, mem)⟩
  | 0x9C => some ⟨"RES 3, H", 1, some fun cpu mem => (res_r8 cpu .Three .H, mem)⟩
  | 0x9D => some ⟨"RES 3, L", 1, some fun cpu mem => (res_r8 cpu .Three .L, mem)⟩
  | 0x9E => some ⟨"RES 3, [HL]", 1, some fun cpu mem => (cpu, res_indirect_hl cpu mem .Three)⟩
  | 0x9F => some ⟨"RES 3, A", 1, some fun cpu mem => (res_r8 cpu .Three .A, mem)⟩
  | 0xA0 => some ⟨"RES 4, B", 1, some fun cpu mem => (res_r8 cpu .Four .B, mem)⟩
  | 0xA1 => some ⟨"RES 4, C", 1, some fun cpu mem => (res_r8 cpu .Four .C, mem)⟩
  | 0xA2 => some ⟨"RES 4, D", 1, some fun cpu mem => (res_r8 cpu .Four .D, mem)⟩
  | 0xA3 => some ⟨"RES 4, E", 1, some fun cpu mem => (res_r8 cpu .Four .E, mem)⟩
  | 0xA4 => some ⟨"RES 4, H", 1, some fun cpu mem => (res_r8 cpu .Four .H, mem)⟩
  | 0xA5 => some ⟨"RES 4, L", 1, some fun cpu mem => (res_r8 cpu .Four .L, mem)⟩
  | 0xA6 => some ⟨"RES 4, [HL]", 1, some fun cpu mem => (cpu, res_indirect_hl cpu mem .Four)⟩
  | 0xA7 => some ⟨"RES 4, A", 1, some fun cpu mem => (res_r8 cpu .Four .A, mem)⟩
  | 0xA8 => some ⟨"RES 5, B", 1, some fun cpu mem => (res_r8 cpu .Five .B, mem)⟩
  | 0xA9 => some ⟨"RES 5, C", 1, some fun cpu mem => (res_r8 cpu .Five .C, mem)⟩
  | 0xAA => some ⟨"RES 5, D", 1, some fun cpu mem => (res_r8 cpu .Five .D, mem)⟩
  | 0xAB => some ⟨"RES 5, E", 1, some fun cpu mem => (res_r8 cpu .Five .E, mem)⟩
  | 0xAC => some ⟨"RES 5, H", 1, some fun cpu mem => (res_r8 cpu .Five .H, mem)⟩
  | 0xAD => some ⟨"RES 5, L", 1, some fun cpu mem => (res_r8 cpu .Five .L, mem)⟩
  | 0xAE => some ⟨"RES 5, [HL]", 1, some fun cpu mem => (cpu, res_indirect_hl cpu mem .Five)⟩
  | 0xAF => some ⟨"RES 5, A", 1, some fun cpu mem => (res_r8 cpu .Five .A, mem)⟩
  | 0xB0 => some ⟨"RES 6, B", 1, some fun cpu mem => (res_r8 cpu .Six .B, mem)⟩
  | 0xB1 => some ⟨"RES 6, C", 1, some fun cpu mem => (res_r8 cpu .Six .C, mem)⟩
  | 0xB2 => some ⟨"RES 6, D", 1, some fun cpu mem => (res_r8 cpu .Six .D, mem)⟩
  | 0xB3 => some ⟨"RES 6, E", 1, some fun cpu mem => (res_r8 cpu .Six .E, mem)⟩
  | 0xB4 => some ⟨"RES 6, H", 1, some fun cpu mem => (res_r8 cpu .Six .H, mem)⟩
  | 0xB5 => some ⟨"RES 6, L", 1, some fun cpu mem => (res_r8 cpu .Six .L, mem)⟩
  | 0xB6 => some ⟨"RES 6, [HL]", 1, some fun cpu mem => (cpu, res_indirect_hl cpu mem .Six)⟩
  | 0xB7 => some ⟨"RES 6, A", 1, some fun cpu mem => (res_r8 cpu .Six .A, mem)⟩
  | 0xB8 => some ⟨"RES 7, B", 1, some fun cpu mem => (res_r8 cpu .Seven .B, mem)⟩
  | 0xB9 => some ⟨"RES 7, C", 1, some fun cpu mem => (res_r8 cpu .Seven .C, mem)⟩
  | 0xBA => some ⟨"RES 7, D", 1, some fun cpu mem => (res_r8 cpu .Seven .D, mem)⟩
  | 0xBB => some ⟨"RES 7, E", 1, some fun cpu mem => (res_r8 cpu .Seven .E, mem)⟩
  | 0xBC => some ⟨"RES 7, H", 1, some fun cpu mem => (res_r8 cpu .Seven .H, mem)⟩
  | 0xBD => some ⟨"RES 7, L", 1, some fun cpu mem => (res_r8 cpu .Seven .L, mem)⟩
  | 0xBE => some ⟨"RES 7, [HL]", 1, some fun cpu mem => (cpu, res_indirect_hl cpu mem .Seven)⟩
  | 0xBF => some ⟨"RES 7, A", 1, some fun cpu mem => (res_r8 cpu .Seven .A, mem)⟩
  | _ => none

set_option maxHeartbeats 1600000 in
/-- Arms 0xC0–0xFF of opcode.rs `decode_prefixed` (the CB-prefixed table); any byte in the range that has no
arm falls to the Rust wildcard and decodes to `none`. -/
def decode_prefixed_c0_ff (byte : Nat) : Option Opcode :=
  match byte with
  | 0xC0 => some ⟨"SET 0, B", 1, none⟩
  | 0xC1 => some ⟨"SET 0, C", 1, none⟩
  | 0xC2 => some ⟨"SET 0, D", 1, none⟩
  | 0xC3 => some ⟨"SET 0, E", 1, none⟩
  | 0xC4 => some ⟨"SET 0, H", 1, none⟩
  | 0xC5 => some ⟨"SET 0, L", 1, none⟩
  | 0xC6 => some ⟨"SET 0, [HL]", 1, some fun cpu mem => (cpu, set_indirect_hl cpu mem .Zero)⟩
  | 0xC7 => some ⟨"SET 0, A", 1, none⟩
  | 0xC8 => some ⟨"SET 1, B", 1, none⟩
  | 0xC9 => some ⟨"SET 1, C", 1, none⟩
  | 0xCA => some ⟨"SET 1, D", 1, none⟩
  | 0xCB => some ⟨"SET 1, E", 1, none⟩
  | 0xCC => some ⟨"SET 1, H", 1, none⟩
  | 0xCD => some ⟨"SET 1, L", 1, none⟩
  | 0xCE => some ⟨"SET 1, [HL]", 1, some fun cpu mem => (cpu, set_indirect_hl cpu mem .One)⟩
  | 0xCF => some ⟨"SET 1, A", 1, none⟩
  | 0xD0 => some ⟨"SET 2, B", 1, none⟩
  | 0xD1 => some ⟨"SET 2, C", 1, none⟩
  | 0xD2 => some ⟨"SET 2, D", 1, none⟩
  | 0xD3 => some ⟨"SET 2, E", 1, none⟩
  | 0xD4 => some ⟨"SET 2, H", 1, none⟩
  | 0xD5 => some ⟨"SET 2, L", 1, none⟩
  | 0xD6 => some ⟨"SET 2, [HL]", 1, some fun cpu mem => (cpu, set_indirect_hl cpu mem .Two)⟩
  | 0xD7 => some ⟨"SET 2, A", 1, none⟩
  | 0xD8 => some ⟨"SET 3, B", 1, none⟩
  | 0xD9 => some ⟨"SET 3, C", 1, none⟩
  | 0xDA => some ⟨"SET 3, D", 1, none⟩
  | 0xDB => some ⟨"SET 3, E", 1, none⟩
  | 0xDC => some ⟨"SET 3, H", 1, none⟩
  | 0xDD => some ⟨"SET 3, L", 1, none⟩
  | 0xDE => some ⟨"SET 3, [HL]", 1, some fun cpu mem => (cpu, set_indirect_hl cpu mem .Three)⟩
  | 0xDF => some ⟨"SET 3, A", 1, none⟩
  | 0xE0 => some ⟨"SET 4, B", 1, none⟩
  | 0xE1 => some ⟨"SET 4, C", 1, none⟩
  | 0xE2 => some ⟨"SET 4, D", 1, none⟩
  | 0xE3 => some ⟨"SET 4, E", 1, none⟩
  | 0xE4 => some ⟨"SET 4, H", 1, none⟩
  | 0xE5 => some ⟨"SET 4, L", 1, none⟩
  | 0xE6 => some ⟨"SET 4, [HL]", 1, some fun cpu mem => (cpu, set_indirect_hl cpu mem .Four)⟩
  | 0xE7 => some ⟨"SET 4, A", 1, none⟩
  | 0xE8 => some ⟨"SET 5, B", 1, none⟩
  | 0xE9 => some ⟨"SET 5, C", 1, none⟩
  | 0xEA => some ⟨"SET 5, D", 1, none⟩
  | 0xEB => some ⟨"SET 5, E", 1, none⟩
  | 0xEC => some ⟨"SET 5, H", 1, none⟩
  | 0xED => some ⟨"SET 5, L", 1, none⟩
  | 0xEE => some ⟨"SET 5, [HL]", 1, some fun cpu mem => (cpu, set_indirect_hl cpu mem .Five)⟩
  | 0xEF => some ⟨"SET 5, A", 1, none⟩
  | 0xF0 => some ⟨"SET 6, B", 1, none⟩
  | 0xF1 => some ⟨"SET 6, C", 1, none⟩
  | 0xF2 => some ⟨"SET 6, D", 1, none⟩
  | 0xF3 => some ⟨"SET 6, E", 1, none⟩
  | 0xF4 => some ⟨"SET 6, H", 1, none⟩
  | 0xF5 => some ⟨"SET 6, L", 1, none⟩
  | 0xF6 => some ⟨"SET 6, [HL]", 1, some fun cpu mem => (cpu, set_indirect_hl cpu mem .Six)⟩
  | 0xF7 => some ⟨"SET 6, A", 1, none⟩
  | 0xF8 => some ⟨"SET 7, B", 1, none⟩
  | 0xF9 => some ⟨"SET 7, C", 1, none⟩
  | 0xFA => some ⟨"SET 7, D", 1, none⟩
  | 0xFB => some ⟨"SET 7, E", 1, none⟩
  | 0xFC => some ⟨"SET 7, H", 1, none⟩
  | 0xFD => some ⟨"SET 7, L", 1, none⟩
  | 0xFE => some ⟨"SET 7, [HL]", 1, some fun cpu mem => (cpu, set_indirect_hl cpu mem .Seven)⟩
  | 0xFF => some ⟨"SET 7, A", 1, none⟩
  | _ => none

/-- opcode.rs `decode_prefixed`: the CB-prefixed opcode table, split into the
same four quadrants as `decode`; Rust handlers that are `None` (all of RLC,
RRC, SRA, `RL [HL]`, `RR [HL]`, `SLA [HL]`, `SWAP [HL]`, `SRL [HL]` and every
`SET` on a plain register) carry `none` here as well. -/
def decode_prefixed (byte : Nat) : Option Opcode :=
  if byte < 0x40 then decode_prefixed_00_3f byte
  else if byte < 0x80 then decode_prefixed_40_7f byte
  else if byte < 0xC0 then decode_prefixed_80_bf byte
  else decode_prefixed_c0_ff byte

/-! cpu.rs: interrupt handling and the step function -/

/-- cpu.rs `Cpu::handled_interrupts`.  The Rust function returns `bool` and
mutates `self`/`memory` only on the `true` paths; it is embedded as an
`Option`: `none` is the `false` return (state untouched), `some` carries the
updated state.  The if-chain selects `(bit_to_reset, handler_address)`;
`sp - 2` and `new_sp + 1` are wrapping u16 arithmetic. -/
def Cpu.handled_interrupts (cpu : Cpu) (memory : Memory) : Option (Cpu × Memory) :=
  if !cpu.ime then none
  else
    let ie_register := memory.read 0xFFFF
    let if_register := memory.read 0xFF0F
    let sel : Option (Nat × Nat) :=
      if bit ie_register 0 &&& bit if_register 0 == 1 then some (0, 0x40)
      else if bit ie_register 1 &&& bit if_register 1 == 1 then some (1, 0x48)
      else if bit ie_register 2 &&& bit if_register 2 == 1 then some (2, 0x50)
      else if bit ie_register 3 &&& bit if_register 3 == 1 then some (3, 0x58)
      else if bit ie_register 4 &&& bit if_register 4 == 1 then some (4, 0x60)
      else none
    match sel with
    | none => none
    | some (bit_to_reset, interrupt_handler_address) =>
      let cpu := { cpu with ime := false }
      let memory := memory.write 0xFF0F (set_bits if_register 0 (1 <<< bit_to_reset))
      let pc := cpu.read_register_wide .PC
      let sp := cpu.read_register_wide .SP
      let new_sp := (sp + 65536 - 2) % 65536
      let p := u16_to_u8 pc
      let memory := memory.write new_sp p.2
      let memory := memory.write ((new_sp + 1) % 65536) p.1
      let cpu := cpu.write_register_wide .SP new_sp
      let cpu := cpu.write_register_wide .PC interrupt_handler_address
      some (cpu, memory)

/-- The tail of cpu.rs `Cpu::step` after the opcode has been looked up,
shared by the prefixed and unprefixed paths: on `None` the step returns with
the state untouched; otherwise the PREFIX flag is set for a "PREFIX" opcode,
PC advances by the opcode size (wrapping u16), the handler runs and
`check_interrupts_enabled` finishes the step. -/
def step_after_decode (cpu : Cpu) (memory : Memory) (opcode : Option Opcode) :
    Cpu × Memory :=
  match opcode with
  | none => (cpu, memory)
  | some opcode =>
    let cpu := if opcode.mnemonic == "PREFIX" then { cpu with prefixed := true } else cpu
    let cpu := { cpu with pc := (cpu.pc + opcode.size_bytes) % 65536 }
    let r := opcode.execute cpu memory
    (r.1.check_interrupts_enabled, r.2)

/-- cpu.rs `Cpu::step`.  A serviced interrupt ends the step (after running
`check_interrupts_enabled`); otherwise the byte at PC is decoded, through the
prefixed table when the prefixed flag is set (clearing the flag first). -/
def Cpu.step (cpu : Cpu) (memory : Memory) : Cpu × Memory :=
  match cpu.handled_interrupts memory with
  | some r => (r.1.check_interrupts_enabled, r.2)
  | none =>
    let pc := cpu.read_register_wide .PC
    let byte := memory.read pc
    if cpu.prefixed then
      step_after_decode { cpu with prefixed := false } memory (decode_prefixed byte)
    else
      step_after_decode cpu memory (decode byte)

/-! ppu.rs: the pieces the claims are about.  Register address constants are
inlined (LCDC = 0xFF40, STAT = 0xFF41, SCY = 0xFF42, SCX = 0xFF43, LY = 0xFF44,
LYC = 0xFF45, WY = 0xFF4A, WX = 0xFF4B, IF = 0xFF0F). -/

/-- ppu.rs `TileMapArea` with its `u16` discriminants. -/
inductive TileMapArea where
  | Area9800 | Area9C00

/-- Discriminant of `TileMapArea` (Rust `as u16`). -/
def TileMapArea.val : TileMapArea → Nat
  | .Area9800 => 0x9800
  | .Area9C00 => 0x9C00

/-- ppu.rs `BgWindowTileArea` with its `u16` discriminants. -/
inductive BgWindowTileArea where
  | Area8000 | Area8800

/-- Discriminant of `BgWindowTileArea` (Rust `as u16`). -/
def BgWindowTileArea.val : BgWindowTileArea → Nat
  | .Area8000 => 0x8000
  | .Area8800 => 0x8800

/-- ppu.rs `PpuMode` with its `u8` discriminants. -/
inductive PpuMode where
  | HorizontalBlank | VerticalBlank | OamScan | Drawing
deriving DecidableEq

/-- Discriminant of `PpuMode` (Rust `as u8`). -/
def PpuMode.val : PpuMode → Nat
  | .HorizontalBlank => 0
  | .VerticalBlank => 1
  | .OamScan => 2
  | .Drawing => 3

/-- ppu.rs `read_window_tile_map_area` (LCDC bit 6). -/
def read_window_tile_map_area (memory : Memory) : TileMapArea :=
  if bit (memory.read 0xFF40) 6 == 0 then .Area9800 else .Area9C00

/-- ppu.rs `read_window_enabled` (LCDC bit 5; note the comparison is `== 1`,
so it is the embedding of the source line, bit 5 shifted makes the raw value
32 when set — the source compares `bit(lcdc, 5) == 1`). -/
def read_window_enabled (memory : Memory) : Bool :=
  bit (memory.read 0xFF40) 5 == 1

/-- ppu.rs `read_bg_window_tile_area` (LCDC bit 4). -/
def read_bg_window_tile_area (memory : Memory) : BgWindowTileArea :=
  if bit (memory.read 0xFF40) 4 == 0 then .Area8800 else .Area8000

/-- ppu.rs `read_bg_tile_map_area` (LCDC bit 3). -/
def read_bg_tile_map_area (memory : Memory) : TileMapArea :=
  if bit (memory.read 0xFF40) 3 == 0 then .Area9800 else .Area9C00

/-- ppu.rs `read_ppu_mode` (STAT bits 1 and 0). -/
def read_ppu_mode (memory : Memory) : PpuMode :=
  let lcd_status_register := memory.read 0xFF41
  let msb := bit lcd_status_register 1
  let lsb := bit lcd_status_register 0
  match msb == 0, lsb == 0 with
  | true, true => .HorizontalBlank
  | true, false => .VerticalBlank
  | false, true => .OamScan
  | false, false => .Drawing

/-- ppu.rs `request_vblank_interrupt`: sets bit 0 of the IF register. -/
def request_vblank_interrupt (memory : Memory) : Memory :=
  let status_register := memory.read 0xFF0F
  memory.write 0xFF0F (set_bits status_register 1 0b00000001)

/-- ppu.rs `write_coincidence_flag` (STAT bit 2). -/
def write_coincidence_flag (memory : Memory) (enabled : Bool) : Memory :=
  let status_register := memory.read 0xFF41
  memory.write 0xFF41 (set_bits status_register (if enabled then 1 else 0) 0b00000100)

/-- ppu.rs `write_ppu_mode` (STAT bits 1..0). -/
def write_ppu_mode (memory : Memory) (ppu_mode : PpuMode) : Memory :=
  let status_register := memory.read 0xFF41
  memory.write 0xFF41 (set_bits status_register ppu_mode.val 0b00000011)

/-- ppu.rs `PixelColour`. -/
inductive PixelColour where
  | White | LightGray | DarkGray | Black
deriving DecidableEq

/-- ppu.rs `PixelColour::try_from`. -/
def PixelColour.try_from (item : Nat) : Option PixelColour :=
  match item with
  | 0 => some .White
  | 1 => some .LightGray
  | 2 => some .DarkGray
  | 3 => some .Black
  | _ => none

/-- ppu.rs `line_bytes_to_pixel_colours`.  The loop writes pixel `i` from bit
`7 - i` of the two bytes; `(msb << 1) | lsb` is at most 3, so the
`expect` on `try_from` never fires — embedded with `White` (the array
initialiser) as the impossible fallback. -/
def line_bytes_to_pixel_colours (first_byte second_byte : Nat) : List PixelColour :=
  (List.range 8).map fun i =>
    let b := 7 - i
    let lsb := (first_byte >>> b) &&& 1
    let msb := (second_byte >>> b) &&& 1
    (PixelColour.try_from ((msb <<< 1) ||| lsb)).getD .White

/-- ppu.rs `ObjectBackgroundPriority`. -/
inductive ObjectBackgroundPriority where
  | Object | Background

/-- ppu.rs `Palette`. -/
inductive Palette where
  | Bgp | Obp0 | Obp1

/-- ppu.rs `Pixel`. -/
structure Pixel where
  colour : PixelColour
  palette : Palette
  priority : ObjectBackgroundPriority

/-- ppu.rs `FetchStep` (the `Push` payload `[PixelColour; 8]` is a list). -/
inductive FetchStep where
  | Paused
  | FetchTileNumber
  | FetchTileLow (tile_number : Nat)
  | FetchTileHigh (tile_data_low_address tile_data_low : Nat)
  | Push (pixel_colours : List PixelColour)

/-- ppu.rs `BackgroundFetcher` (the `VecDeque<Pixel>` FIFO is a list). -/
structure BackgroundFetcher where
  x_position : Nat
  fetch_step : FetchStep
  fifo : List Pixel

/-- ppu.rs `fetch_non_window_tile_data_address`. -/
def fetch_non_window_tile_data_address (tile_data_area : BgWindowTileArea)
    (tile_number ly scy : Nat) : Nat :=
  let tile_offset := tile_number * 16
  let tile_byte_offset := 2 * ((ly + scy) % 8)
  (tile_data_area.val + tile_offset + tile_byte_offset) % 65536

/-- The u16 computation `wx - 7` from the window test in the
`FetchStep::FetchTileNumber` arm of ppu.rs `BackgroundFetcher::step`
(`(scanline_x_position as u16) >= wx - 7`): an unsigned 16-bit subtraction
that wraps modulo 2^16 when `wx < 7`. -/
def window_x_threshold (wx : Nat) : Nat :=
  (wx + 65536 - 7) % 65536

/-- The window test of the `FetchTileNumber` arm of ppu.rs
`BackgroundFetcher::step`:
`read_window_enabled(memory) && (scanline_x_position as u16) >= wx - 7 && ly >= wy`. -/
def is_window_tile (memory : Memory) (scanline_x_position : Nat) : Bool :=
  let ly := memory.read 0xFF44
  let wy := memory.read 0xFF4A
  let wx := memory.read 0xFF4B
  read_window_enabled memory &&
    decide (scanline_x_position ≥ window_x_threshold wx) && decide (ly ≥ wy)

/-- ppu.rs `BackgroundFetcher::step`. -/
def BackgroundFetcher.step (self : BackgroundFetcher) (memory : Memory)
    (scanline_x_position : Nat) : BackgroundFetcher :=
  let ly := memory.read 0xFF44
  let scy := memory.read 0xFF42
  let scx := memory.read 0xFF43
  let tile_data_area := read_bg_window_tile_area memory
  match self.fetch_step with
  | .Paused => self
  | .FetchTileNumber =>
    let tile_map_area :=
      if is_window_tile memory scanline_x_position then read_window_tile_map_area memory
      else read_bg_tile_map_area memory
    let y_offset := (32 * (((ly + scy) &&& 0xFF) / 8)) &&& 0x3FF
    let scx_offset := scx &&& 0x1F
    let x_offset := (self.x_position + scx_offset) &&& 0x3FF
    let tile_number_address := (tile_map_area.val + x_offset + y_offset) % 65536
    let tile_number := memory.read tile_number_address
    { self with fetch_step := .FetchTileLow tile_number }
  | .FetchTileLow tile_number =>
    let address := fetch_non_window_tile_data_address tile_data_area tile_number ly scy
    let tile_data_low := memory.read address
    { self with fetch_step := .FetchTileHigh address tile_data_low }
  | .FetchTileHigh tile_data_low_address tile_data_low =>
    let tile_data_high := memory.read ((tile_data_low_address + 1) % 65536)
    let pixel_colours := line_bytes_to_pixel_colours tile_data_low tile_data_high
    { self with fetch_step := .Push pixel_colours }
  | .Push pixel_colours =>
    if self.fifo.isEmpty then
      let pixels := pixel_colours.map fun colour =>
        Pixel.mk colour .Bgp .Background
      { self with
        x_position := (self.x_position + 1) &&& 0x1F
        fifo := self.fifo ++ pixels
        fetch_step := .FetchTileNumber }
    else
      self

/-- One `Ppu::step` of ppu.rs taken while `read_ppu_mode` is
`PpuMode::VerticalBlank`: the shared preamble (coincidence flag) followed by
the `VerticalBlank` arm.  Only the `dot` field of `Ppu` is touched by this
arm, so the function carries `dot` and the memory. -/
def ppu_step_vertical_blank (dot : Nat) (memory : Memory) : Nat × Memory :=
  let ly := memory.read 0xFF44
  let lyc := memory.read 0xFF45
  let memory := write_coincidence_flag memory (ly == lyc)
  let memory := if dot == 0 then request_vblank_interrupt memory else memory
  let dot := dot + 1
  if dot ≥ 456 then
    let new_ly := (ly + 1) % 256
    if new_ly > 153 then
      let memory := write_ppu_mode memory .OamScan
      (0, memory.write 0xFF44 0)
    else
      (0, memory.write 0xFF44 new_ly)
  else
    (dot, memory)

/-! Concrete states used by the witnesses and counterexamples. -/

/-- The all-zero byte array. -/
def zeroRam : Nat → Nat := fun _ => 0

/-- A CPU with every register cleared, IME off, no pending EI, prefix clear
(the fields of `Cpu::init` except that `init` sets `ime: true`). -/
def cpuZero : Cpu :=
  ⟨0, 0, 0, 0, 0, 0, 0, 0, 0, 0, false, none, false⟩

/-- Memory with an active DMA transfer whose last transferred byte is 0xAA and
with 0x55 stored at 0xC000. -/
def memDma : Memory :=
  { bootstrap_rom := zeroRam
    dma_state := .active 0xC000 5 0xAA
    ram := setRam zeroRam 0xC000 0x55
    pc := 0 }

/-! C1.  The spec says `Memory::read` applies a DMA conflict mask.  In the
source that block is commented out: `read` never looks at `dma_state`. -/

/-- C1 (counterexample): with DMA active and last transferred byte 0xAA,
reading 0xC000 (outside [0xFF80, 0xFFFE]) returns the stored byte 0x55, not
0xAA as the claim requires. -/
theorem read_during_dma_counterexample :
    memDma.dma_state = DmaState.active 0xC000 5 0xAA ∧
    Memory.read memDma 0xC000 = 0x55 ∧ (0x55 : Nat) ≠ 0xAA :=
  ⟨rfl, by decide, by decide⟩

/-- C1 (amended): `Memory::read` does not consult the DMA engine at all — its
result is the same whatever `dma_state` holds — and during an active DMA a
read at or above 0x100 returns the stored RAM byte, never the last
transferred byte. -/
theorem read_ignores_dma_state :
    (∀ (boot ram : Nat → Nat) (p : Nat) (d dAlt : DmaState) (address : Nat),
      Memory.read ⟨boot, d, ram, p⟩ address = Memory.read ⟨boot, dAlt, ram, p⟩ address) ∧
    (∀ (boot ram : Nat → Nat) (p src cycles last address : Nat),
      0x100 ≤ address →
      Memory.read ⟨boot, .active src cycles last, ram, p⟩ address = ram address) := by
  constructor
  · intro boot ram p d dAlt address
    rfl
  · intro boot ram p src cycles last address haddr
    unfold Memory.read
    have : ¬ (address < 0x100) := by omega
    simp [this]

/-- C1 (witness for the amended theorem): instantiated at `memDma` and
address 0xC000. -/
theorem read_ignores_dma_state_witness :
    (0x100 : Nat) ≤ 0xC000 ∧
    Memory.read ⟨zeroRam, .active 0xC000 5 0xAA, setRam zeroRam 0xC000 0x55, 0⟩ 0xC000 =
      setRam zeroRam 0xC000 0x55 0xC000 :=
  ⟨by decide, read_ignores_dma_state.2 zeroRam _ 0 0xC000 5 0xAA 0xC000 (by decide)⟩

/-! C5.  The boot-ROM overlay is controlled by the current value of
ram[0xFF50] only; nothing latches it off. -/

/-- Memory whose boot ROM starts with 0x31 (first byte of a DMG boot ROM). -/
def memBoot : Memory :=
  { bootstrap_rom := setRam zeroRam 0 0x31
    dma_state := .inactive
    ram := zeroRam
    pc := 0 }

/-- C5 (counterexample): store 0xAB at 0x0000, disable the overlay by writing
0x01 to 0xFF50 — a read of 0x0000 now returns the RAM byte 0xAB — then write
0x00 back to 0xFF50: the same read returns the boot-ROM byte 0x31 again, so a
later write of zero does re-enable the overlay, contradicting the claim. -/
theorem boot_rom_reenable_counterexample :
    Memory.read ((memBoot.write 0x0000 0xAB).write 0xFF50 0x01) 0x0000 = 0xAB ∧
    Memory.read (((memBoot.write 0x0000 0xAB).write 0xFF50 0x01).write 0xFF50 0x00) 0x0000
      = 0x31 ∧
    (0x31 : Nat) ≠ 0xAB := by
  refine ⟨by decide, by decide, by decide⟩

/-- A write with DMA inactive to an address other than 0xFF46 just stores the
byte in RAM. -/
theorem write_inactive_eq (m : Memory) (address value : Nat)
    (hdma : m.dma_state = DmaState.inactive) (haddr : address ≠ 0xFF46) :
    m.write address value = { m with ram := setRam m.ram address value } := by
  unfold Memory.write
  rw [hdma]
  simp [haddr]

/-- C5 (amended): the overlay follows the current value of ram[0xFF50].
While ram[0xFF50] ≠ 0, every read (below 0x100 or not) returns RAM; and
writing a non-zero value to 0xFF50 followed by writing zero puts the boot ROM
back in front of every address below 0x100 (DMA inactive so the writes land). -/
theorem boot_rom_overlay_follows_ff50 :
    (∀ (m : Memory) (address : Nat),
      m.ram 0xFF50 ≠ 0 → Memory.read m address = m.ram address) ∧
    (∀ (m : Memory) (v address : Nat),
      m.dma_state = DmaState.inactive → v ≠ 0 → address < 0x100 →
      Memory.read ((m.write 0xFF50 v).write 0xFF50 0) address = m.bootstrap_rom address) := by
  constructor
  · intro m address hv
    unfold Memory.read
    simp [hv]
  · intro m v address hdma hv haddr
    rw [write_inactive_eq m 0xFF50 v hdma (by decide)]
    rw [write_inactive_eq { m with ram := setRam m.ram 0xFF50 v } 0xFF50 0 hdma (by decide)]
    unfold Memory.read
    have h50 : setRam (setRam m.ram 0xFF50 v) 0xFF50 0 0xFF50 = 0 := by
      simp [setRam]
    have hlt : address < 0x100 := haddr
    simp [h50, hlt]

/-- C5 (witness for the amended theorem): instantiated at `memBoot` with
v = 1 and address 0. -/
theorem boot_rom_overlay_follows_ff50_witness :
    Memory.read ((memBoot.write 0x0000 0xAB).write 0xFF50 0x01) 0x0000 =
      ((memBoot.write 0x0000 0xAB).write 0xFF50 0x01).ram 0x0000 ∧
    Memory.read ((memBoot.write 0xFF50 0x01).write 0xFF50 0x00) 0x0000 =
      memBoot.bootstrap_rom 0x0000 :=
  ⟨boot_rom_overlay_follows_ff50.1 _ 0x0000 (by decide),
   boot_rom_overlay_follows_ff50.2 memBoot 0x01 0x0000 rfl (by decide) (by decide)⟩

/-! C6.  `res_r8`/`res_indirect_hl` call `set_bits(value, 1, 1 << b)`; the
second argument should be 0 (compare `Cpu::handled_interrupts`, which clears
an IF bit with `set_bits(if_register, 0, mask)`).  For b = 0 the stray 1 lies
inside the mask, so RES 0 sets bit 0 instead of clearing it. -/

/-- C6 (code bug, evaluated at the failing input): RES 0, B on B = 0x00 makes
B = 0x01 — bit 0 is set, not cleared — and likewise RES 0, [HL] writes 0x01
over a stored 0x00; for b ≥ 1 (here RES 1, B on 0xFF) the bit is cleared as
the claim states. -/
theorem res_zero_sets_instead_of_clears :
    (res_r8 cpuZero .Zero .B).b = 0x01 ∧
    ((res_indirect_hl { cpuZero with h := 0xC0, l := 0x00 }
        ⟨zeroRam, .inactive, zeroRam, 0⟩ .Zero).ram 0xC000 = 0x01) ∧
    (res_r8 { cpuZero with b := 0xFF } .One .B).b = 0xFD := by
  refine ⟨by decide, by decide, by decide⟩

/-! C7.  Wide register write/read round-trips: BC, DE and HL are exact, AF
masks the low nibble of F. -/

/-- C7 (counterexample): write 0xABCD to AF and read the halves: A = 0xAB but
F = 0xC0, not the least significant byte 0xCD demanded by the claim. -/
theorem write_af_low_nibble_counterexample :
    (cpuZero.write_register_wide .AF 0xABCD).a = 0xAB ∧
    (cpuZero.write_register_wide .AF 0xABCD).f = 0xC0 ∧
    (0xC0 : Nat) ≠ 0xCD := by
  refine ⟨by decide, by decide, by decide⟩

/-- C7 (amended): for every CPU and every 16-bit value v, writing v to BC, DE
or HL and reading the two 8-bit halves yields exactly (msb v, lsb v); for AF
the most significant byte round-trips but F comes back as the least
significant byte with its low nibble cleared. -/
theorem write_register_wide_msb_lsb (cpu : Cpu) (v : Nat) (hv : v < 65536) :
    ((cpu.write_register_wide .BC v).b = v >>> 8 ∧ (cpu.write_register_wide .BC v).c = v &&& 0xFF) ∧
    ((cpu.write_register_wide .DE v).d = v >>> 8 ∧ (cpu.write_register_wide .DE v).e = v &&& 0xFF) ∧
    ((cpu.write_register_wide .HL v).h = v >>> 8 ∧ (cpu.write_register_wide .HL v).l = v &&& 0xFF) ∧
    ((cpu.write_register_wide .AF v).a = v >>> 8 ∧
      (cpu.write_register_wide .AF v).f = (v &&& 0xFF) &&& 0xF0) := by
  have hmsb : (v >>> 8) &&& 0xFF = v >>> 8 := by
    have h2 : v >>> 8 < 2 ^ 8 := by
      rw [Nat.shiftRight_eq_div_pow]
      omega
    calc (v >>> 8) &&& 0xFF = (v >>> 8) % 2 ^ 8 := by
          rw [show (0xFF : Nat) = 2 ^ 8 - 1 from rfl, Nat.and_pow_two_sub_one_eq_mod]
      _ = v >>> 8 := Nat.mod_eq_of_lt h2
  exact ⟨⟨hmsb, rfl⟩, ⟨hmsb, rfl⟩, ⟨hmsb, rfl⟩, hmsb, rfl⟩

/-- C7 (witness for the amended theorem): at v = 0xABCD the halves of BC come
back as (0xAB, 0xCD) and F of AF comes back 0xC0. -/
theorem write_register_wide_msb_lsb_witness :
    (0xABCD : Nat) < 65536 ∧
    (cpuZero.write_register_wide .BC 0xABCD).b = 0xABCD >>> 8 ∧
    (cpuZero.write_register_wide .BC 0xABCD).c = 0xABCD &&& 0xFF ∧
    (cpuZero.write_register_wide .AF 0xABCD).f = (0xABCD &&& 0xFF) &&& 0xF0 :=
  ⟨by decide,
   (write_register_wide_msb_lsb cpuZero 0xABCD (by decide)).1.1,
   (write_register_wide_msb_lsb cpuZero 0xABCD (by decide)).1.2,
   (write_register_wide_msb_lsb cpuZero 0xABCD (by decide)).2.2.2.2⟩

/-! C10.  The window test of the background fetcher is
`read_window_enabled(memory) && (x as u16) >= wx - 7 && ly >= wy`.
`read_window_enabled` compares `bit(lcdc, 5)` — which is 0 or 32 — with `1`,
so it is false for every memory state; Rust `&&` short-circuits, so the u16
subtraction `wx - 7` is never evaluated and can never underflow. -/

/-- `read_window_enabled` is false for every memory state: `bit(lcdc, 5)` is
either 0 or 32, never 1. -/
theorem read_window_enabled_eq_false (m : Memory) : read_window_enabled m = false := by
  unfold read_window_enabled bit
  have h32 : m.read 0xFF40 &&& (1 <<< 5) = (Nat.testBit (m.read 0xFF40) 5).toNat * 2 ^ 5 := by
    rw [show (1 <<< 5 : Nat) = 2 ^ 5 from rfl]
    exact Nat.and_two_pow _ 5
  rw [h32]
  cases Nat.testBit (m.read 0xFF40) 5 <;> decide

/-- Checked-arithmetic embedding of the window test line of the
`FetchTileNumber` arm of `BackgroundFetcher::step`: Rust `&&` short-circuits
left to right, and in a debug build the u16 subtraction `wx - 7` panics on
underflow — `none` marks that panic.  (The wrapping-release embedding of the
same line is `is_window_tile` above, which `BackgroundFetcher.step` uses.) -/
def is_window_tile_checked (memory : Memory) (scanline_x_position : Nat) : Option Bool :=
  let ly := memory.read 0xFF44
  let wy := memory.read 0xFF4A
  let wx := memory.read 0xFF4B
  if read_window_enabled memory then
    if wx < 7 then none
    else some (decide (scanline_x_position ≥ wx - 7) && decide (ly ≥ wy))
  else some false

/-- C10: the window test completes without arithmetic underflow for every
scanline x position, even when LCDC bit 5 is set and WX < 7: the
window-enabled conjunct is false for every state (its `== 1` comparison can
never hit the bit-5 value 0 or 32), so the subtraction is short-circuited
away; the test yields `false` and the fetcher step is total. -/
theorem window_test_no_underflow (m : Memory) (x : Nat)
    (h5 : bit (m.read 0xFF40) 5 ≠ 0) (hwx : m.read 0xFF4B < 7) :
    is_window_tile_checked m x = some false ∧ is_window_tile m x = false := by
  constructor
  · unfold is_window_tile_checked
    simp [read_window_enabled_eq_false]
  · unfold is_window_tile
    simp [read_window_enabled_eq_false]

/-- Memory with LCDC bit 5 set (value 0x20) and WX = 0. -/
def memWindow : Memory :=
  { bootstrap_rom := zeroRam
    dma_state := .inactive
    ram := setRam zeroRam 0xFF40 0x20
    pc := 0 }

/-- C10 (witness): instantiated at `memWindow` (LCDC = 0x20, WX = 0 < 7) and
x = 0. -/
theorem window_test_no_underflow_witness :
    bit (memWindow.read 0xFF40) 5 ≠ 0 ∧ memWindow.read 0xFF4B < 7 ∧
    is_window_tile_checked memWindow 0 = some false ∧
    is_window_tile memWindow 0 = false :=
  ⟨by decide, by decide,
   (window_test_no_underflow memWindow 0 (by decide) (by decide)).1,
   (window_test_no_underflow memWindow 0 (by decide) (by decide)).2⟩

/-! C4.  The PPU requests the VBlank interrupt at dot 0 of every VerticalBlank
scanline (the VerticalBlank arm fires whenever `dot == 0`, and `dot` is reset
to 0 at the end of each of the ten VBlank lines), not once per frame. -/

/-- Memory in VerticalBlank mode (STAT = 0x01) on scanline `ly` with IF clear. -/
def memVBlank (ly : Nat) : Memory :=
  { bootstrap_rom := zeroRam
    dma_state := .inactive
    ram := setRam (setRam zeroRam 0xFF41 0x01) 0xFF44 ly
    pc := 0 }

/-- C4 (code bug, evaluated at the failing input): on scanline 145 — not 144 —
in VerticalBlank mode at dot 0 with IF = 0x00, one PPU step sets bit 0 of IF;
and a step at dot 455 of scanline 144 rolls over to dot 0 of scanline 145
still in VerticalBlank mode, so that state is reached inside every frame.
The PPU therefore raises the VBlank request on every one of the ten VBlank
scanlines, not exactly once per frame at line 144. -/
theorem vblank_requested_again_on_line_145 :
    read_ppu_mode (memVBlank 145) = PpuMode.VerticalBlank ∧
    (memVBlank 145).read 0xFF44 = 145 ∧
    (memVBlank 145).read 0xFF0F &&& 1 = 0 ∧
    ((ppu_step_vertical_blank 0 (memVBlank 145)).2.read 0xFF0F) &&& 1 = 1 ∧
    (ppu_step_vertical_blank 455 (memVBlank 144)).1 = 0 ∧
    ((ppu_step_vertical_blank 455 (memVBlank 144)).2.read 0xFF44) = 145 ∧
    read_ppu_mode (ppu_step_vertical_blank 455 (memVBlank 144)).2 = PpuMode.VerticalBlank := by
  refine ⟨by decide, by decide, by decide, by decide, by decide, by decide, by decide⟩

/-! C2.  One CPU step from IME = 1, IE = 0x01, IF = 0x01, PC = 0x1000,
SP = 0xFFFE with DMA inactive services the VBlank interrupt. -/

/-- RAM with IE = 0x01 (at 0xFFFF) and IF = 0x01 (at 0xFF0F), all else zero. -/
def ramVBlankPending : Nat → Nat :=
  fun a => if a = 0xFFFF then 1 else if a = 0xFF0F then 1 else 0

/-- The C2 machine state: IME = 1, PC = 0x1000, SP = 0xFFFE, no EI pending. -/
def cpuDispatch : Cpu :=
  ⟨0, 0, 0, 0, 0, 0, 0, 0, 0x1000, 0xFFFE, true, none, false⟩

/-- The C2 memory: IE = 0x01, IF = 0x01, DMA inactive. -/
def memDispatch : Memory :=
  ⟨zeroRam, .inactive, ramVBlankPending, 0⟩

/-- C2: one step from IME = 1, IE = 0x01, IF = 0x01, PC = 0x1000, SP = 0xFFFE
(no EI pending, DMA inactive) gives IME = 0, PC = 0x0040, SP = 0xFFFC,
IF = 0x00, ram[0xFFFD] = 0x10 (old PC high byte at old SP - 1) and
ram[0xFFFC] = 0x00 (old PC low byte at old SP - 2). -/
theorem interrupt_dispatch_services_vblank :
    (Cpu.step cpuDispatch memDispatch).1.ime = false ∧
    (Cpu.step cpuDispatch memDispatch).1.pc = 0x0040 ∧
    (Cpu.step cpuDispatch memDispatch).1.sp = 0xFFFC ∧
    (Cpu.step cpuDispatch memDispatch).2.ram 0xFF0F = 0x00 ∧
    (Cpu.step cpuDispatch memDispatch).2.ram 0xFFFD = 0x10 ∧
    (Cpu.step cpuDispatch memDispatch).2.ram 0xFFFC = 0x00 := by
  refine ⟨by decide, by decide, by decide, by decide, by decide, by decide⟩

/-! Step lemmas shared by C3, C8 and C9. -/

/-- With IME off, `handled_interrupts` returns without touching the state. -/
theorem handled_interrupts_none_of_ime_false (cpu : Cpu) (memory : Memory)
    (h : cpu.ime = false) : cpu.handled_interrupts memory = none := by
  unfold Cpu.handled_interrupts
  rw [h]
  rfl

/-- Bitwise and distributes over a shared mask. -/
theorem land_land_land (x y p : Nat) : (x &&& p) &&& (y &&& p) = (x &&& y) &&& p := by
  apply Nat.eq_of_testBit_eq
  intro i
  simp only [Nat.testBit_land]
  cases hx : Nat.testBit x i <;> cases hy : Nat.testBit y i <;> cases hp : Nat.testBit p i <;> rfl

/-- If no interrupt is both enabled and pending (bits 0..4 of IE & IF all
clear), then each per-bit test of `handled_interrupts` sees 0. -/
theorem pending_bit_eq_zero (ie iff k : Nat) (hk : k < 5)
    (h : ie &&& iff &&& 31 = 0) : bit ie k &&& bit iff k = 0 := by
  unfold bit
  rw [land_land_land]
  have h31 : (31 : Nat) &&& (1 <<< k) = 1 <<< k := by
    interval_cases k <;> decide
  calc (ie &&& iff) &&& (1 <<< k)
      = (ie &&& iff) &&& ((31 : Nat) &&& (1 <<< k)) := by rw [h31]
    _ = ((ie &&& iff) &&& 31) &&& (1 <<< k) := (Nat.land_assoc _ 31 _).symm
    _ = 0 := by rw [h]; simp

/-- With no enabled-and-pending interrupt, `handled_interrupts` returns
without touching the state (whatever IME holds). -/
theorem handled_interrupts_none_of_no_pending (cpu : Cpu) (memory : Memory)
    (h : memory.read 0xFFFF &&& memory.read 0xFF0F &&& 31 = 0) :
    cpu.handled_interrupts memory = none := by
  unfold Cpu.handled_interrupts
  cases hime : cpu.ime
  · rfl
  · have hc : ∀ k, k < 5 →
        (bit (memory.read 0xFFFF) k &&& bit (memory.read 0xFF0F) k == 1) = false := by
      intro k hk
      rw [pending_bit_eq_zero _ _ k hk h]
      rfl
    simp [hc 0 (by omega), hc 1 (by omega), hc 2 (by omega), hc 3 (by omega),
      hc 4 (by omega)]

/-- A step in which no interrupt is serviced and the prefixed flag is clear
just runs the unprefixed table on the byte at PC. -/
theorem step_no_interrupt (cpu : Cpu) (memory : Memory)
    (hnone : cpu.handled_interrupts memory = none) (hpfx : cpu.prefixed = false) :
    Cpu.step cpu memory = step_after_decode cpu memory (decode (memory.read cpu.pc)) := by
  unfold Cpu.step
  rw [hnone, hpfx]
  rfl

/-! C9.  The eleven undefined unprefixed opcodes decode to `none`, and a step
that fetches one of them (prefix clear, no serviceable interrupt) leaves the
whole machine state unchanged. -/

/-- C9: each of the eleven undefined opcodes decodes to `none`, and a CPU
step fetching such a byte at PC — with the prefixed flag clear and either IME
off or no interrupt both enabled and pending — returns the CPU and the memory
exactly as they were. -/
theorem undefined_opcodes_stall :
    (∀ b ∈ ([0xD3, 0xDB, 0xDD, 0xE3, 0xE4, 0xEB, 0xEC, 0xED, 0xF4, 0xFC, 0xFD] : List Nat),
      decode b = none) ∧
    (∀ (cpu : Cpu) (memory : Memory),
      cpu.prefixed = false →
      memory.read cpu.pc ∈
        ([0xD3, 0xDB, 0xDD, 0xE3, 0xE4, 0xEB, 0xEC, 0xED, 0xF4, 0xFC, 0xFD] : List Nat) →
      (cpu.ime = false ∨ memory.read 0xFFFF &&& memory.read 0xFF0F &&& 31 = 0) →
      Cpu.step cpu memory = (cpu, memory)) := by
  have hdec : ∀ b ∈ ([0xD3, 0xDB, 0xDD, 0xE3, 0xE4, 0xEB, 0xEC, 0xED, 0xF4, 0xFC, 0xFD] :
      List Nat), decode b = none := by
    intro b hb
    have : (decode b).isNone = true := by fin_cases hb <;> decide
    exact Option.isNone_iff_eq_none.mp this
  refine ⟨hdec, ?_⟩
  intro cpu memory hpfx hmem hint
  have hnone : cpu.handled_interrupts memory = none := by
    rcases hint with h | h
    · exact handled_interrupts_none_of_ime_false cpu memory h
    · exact handled_interrupts_none_of_no_pending cpu memory h
  rw [step_no_interrupt cpu memory hnone hpfx, hdec _ hmem]
  rfl

/-- The C9 witness state: the undefined opcode 0xD3 at PC = 0, boot overlay
off, IME off. -/
def memUndefined : Memory :=
  ⟨zeroRam, .inactive, fun a => if a = 0 then 0xD3 else if a = 0xFF50 then 1 else 0, 0⟩

/-- C9 (witness): instantiated at `cpuZero` / `memUndefined`. -/
theorem undefined_opcodes_stall_witness :
    Memory.read memUndefined cpuZero.pc ∈
      ([0xD3, 0xDB, 0xDD, 0xE3, 0xE4, 0xEB, 0xEC, 0xED, 0xF4, 0xFC, 0xFD] : List Nat) ∧
    Cpu.step cpuZero memUndefined = (cpuZero, memUndefined) :=
  ⟨by decide,
   undefined_opcodes_stall.2 cpuZero memUndefined rfl (by decide) (Or.inl rfl)⟩

/-! C3.  IME activation after EI: the `steps_since_request_ime_enable`
counter goes `some 0` during the EI step and `some 1` at its end; IME turns
on only at the end of the following instruction's step, not before that
instruction dispatches. -/

/-- Memory holding the program EI; NOP at 0x0000 with the boot overlay off. -/
def memEI : Memory :=
  ⟨zeroRam, .inactive, fun a => if a = 0 then 0xFB else if a = 0xFF50 then 1 else 0, 0⟩

/-- C3 (counterexample): after the EI step, IME is still off (the enable is
only recorded in the counter), so the subsequent instruction dispatches with
IME off — the claim says IME becomes on before that dispatch.  IME is on only
after the second step (the NOP) completes. -/
theorem ime_off_at_next_dispatch :
    (Cpu.step cpuZero memEI).1.ime = false ∧
    (Cpu.step cpuZero memEI).1.steps_since_request_ime_enable = some 1 ∧
    (Cpu.step (Cpu.step cpuZero memEI).1 (Cpu.step cpuZero memEI).2).1.ime = true := by
  refine ⟨by decide, by decide, by decide⟩

/-- The CPU state at the end of an EI step: PC advanced by one, the enable
request counter at `some 1`, everything else (IME included) untouched. -/
def after_ei (cpu : Cpu) : Cpu :=
  { cpu with pc := (cpu.pc + 1) % 65536, steps_since_request_ime_enable := some 1 }

/-- C3 (amended): from any state with IME off, no enable pending and the
prefix flag clear, executing EI (0xFB) followed by NOP (0x00): the EI step
ends with IME still off and the counter at `some 1`, so the following
instruction dispatches with IME off; IME becomes on when that following
step completes — before the second subsequent instruction dispatches. -/
theorem ei_enable_deferred (cpu : Cpu) (memory : Memory)
    (hime : cpu.ime = false) (hcnt : cpu.steps_since_request_ime_enable = none)
    (hpfx : cpu.prefixed = false)
    (h1 : memory.read cpu.pc = 0xFB)
    (h2 : memory.read ((cpu.pc + 1) % 65536) = 0x00) :
    (Cpu.step cpu memory).1.ime = false ∧
    (Cpu.step cpu memory).1.steps_since_request_ime_enable = some 1 ∧
    (Cpu.step (Cpu.step cpu memory).1 (Cpu.step cpu memory).2).1.ime = true := by
  have hnone := handled_interrupts_none_of_ime_false cpu memory hime
  have hs1 : Cpu.step cpu memory = (after_ei cpu, memory) := by
    rw [step_no_interrupt cpu memory hnone hpfx, h1]
    rfl
  have hs1cpu : (Cpu.step cpu memory).1 = after_ei cpu := by rw [hs1]
  have hs1mem : (Cpu.step cpu memory).2 = memory := by rw [hs1]
  refine ⟨by rw [hs1cpu]; exact hime, by rw [hs1cpu]; rfl, ?_⟩
  rw [hs1cpu, hs1mem]
  have hnone2 : Cpu.handled_interrupts (after_ei cpu) memory = none :=
    handled_interrupts_none_of_ime_false _ memory hime
  rw [step_no_interrupt _ memory hnone2 hpfx]
  have hread : memory.read (after_ei cpu).pc = 0x00 := h2
  rw [hread]
  rfl

/-- C3 (witness for the amended theorem): instantiated at `cpuZero` / `memEI`. -/
theorem ei_enable_deferred_witness :
    Memory.read memEI cpuZero.pc = 0xFB ∧
    (Cpu.step cpuZero memEI).1.ime = false ∧
    (Cpu.step (Cpu.step cpuZero memEI).1 (Cpu.step cpuZero memEI).2).1.ime = true := by
  have h := ei_enable_deferred cpuZero memEI rfl rfl rfl (by decide) (by decide)
  exact ⟨by decide, h.1, h.2.2⟩

/-! C8.  The low nibble of F is zero in every reachable state: the only
writers of F are `write_flags` (which touches bits 4..7 only) and the AF arm
of `write_register_wide` (which masks with 0xF0). -/

/-- The C8 invariant: the low nibble of F is zero. -/
def f_low_nibble_zero (cpu : Cpu) : Prop :=
  cpu.f &&& 0xF = 0

/-- Or-ing in bits that miss the low nibble leaves `x &&& 15` unchanged. -/
theorem lor_and15 (x m : Nat) (hm : m &&& 15 = 0) : (x ||| m) &&& 15 = x &&& 15 := by
  apply Nat.eq_of_testBit_eq
  intro i
  have hmi : Nat.testBit (m &&& 15) i = false := by rw [hm]; simp
  rw [Nat.testBit_land] at hmi
  simp only [Nat.testBit_land, Nat.testBit_lor]
  cases h1 : Nat.testBit x i <;> cases h2 : Nat.testBit m i <;>
    cases h3 : Nat.testBit (15 : Nat) i <;> simp_all

/-- And-ing with a mask that keeps the low nibble leaves `x &&& 15` unchanged. -/
theorem land_and15 (x m : Nat) (hm : m &&& 15 = 15) : (x &&& m) &&& 15 = x &&& 15 := by
  rw [Nat.land_assoc, hm]

theorem or_bit7_and15 (x : Nat) : (x ||| (1 <<< 7)) &&& 15 = x &&& 15 :=
  lor_and15 x _ (by decide)

theorem or_bit6_and15 (x : Nat) : (x ||| (1 <<< 6)) &&& 15 = x &&& 15 :=
  lor_and15 x _ (by decide)

theorem or_bit5_and15 (x : Nat) : (x ||| (1 <<< 5)) &&& 15 = x &&& 15 :=
  lor_and15 x _ (by decide)

theorem or_bit4_and15 (x : Nat) : (x ||| (1 <<< 4)) &&& 15 = x &&& 15 :=
  lor_and15 x _ (by decide)

theorem clear_bit7_and15 (x : Nat) : (x &&& ((1 <<< 7) ^^^ 0xFF)) &&& 15 = x &&& 15 :=
  land_and15 x _ (by decide)

theorem clear_bit6_and15 (x : Nat) : (x &&& ((1 <<< 6) ^^^ 0xFF)) &&& 15 = x &&& 15 :=
  land_and15 x _ (by decide)

theorem clear_bit5_and15 (x : Nat) : (x &&& ((1 <<< 5) ^^^ 0xFF)) &&& 15 = x &&& 15 :=
  land_and15 x _ (by decide)

theorem clear_bit4_and15 (x : Nat) : (x &&& ((1 <<< 4) ^^^ 0xFF)) &&& 15 = x &&& 15 :=
  land_and15 x _ (by decide)

/-- `write_flags` only edits bits 4..7 of F. -/
theorem write_flags_f_and15 (cpu : Cpu) (fl : WriteFlags) :
    (cpu.write_flags fl).f &&& 15 = cpu.f &&& 15 := by
  unfold Cpu.write_flags
  rcases fl with ⟨z, s, hc, cy⟩
  rcases z with _ | ⟨_ | _⟩ <;> rcases s with _ | ⟨_ | _⟩ <;>
    rcases hc with _ | ⟨_ | _⟩ <;> rcases cy with _ | ⟨_ | _⟩ <;>
    dsimp only <;>
    simp only [or_bit7_and15, or_bit6_and15, or_bit5_and15, or_bit4_and15,
      clear_bit7_and15, clear_bit6_and15, clear_bit5_and15, clear_bit4_and15]

/-- 8-bit register writes never touch F. -/
theorem write_register_f (cpu : Cpu) (r : Register) (v : Nat) :
    (cpu.write_register r v).f = cpu.f := by
  cases r <;> rfl

theorem pres_wr (cpu : Cpu) (r : Register) (v : Nat) (h : cpu.f &&& 15 = 0) :
    (cpu.write_register r v).f &&& 15 = 0 := by
  rw [write_register_f]
  exact h

theorem pres_wf (cpu : Cpu) (fl : WriteFlags) (h : cpu.f &&& 15 = 0) :
    (cpu.write_flags fl).f &&& 15 = 0 := by
  rw [write_flags_f_and15]
  exact h

/-- Wide register writes keep the low nibble of F zero: the AF arm masks the
low byte with 0xF0, the other arms leave F alone. -/
theorem pres_wrw (cpu : Cpu) (r : RegisterWide) (v : Nat) (h : cpu.f &&& 15 = 0) :
    (cpu.write_register_wide r v).f &&& 15 = 0 := by
  cases r with
  | AF =>
    show ((v &&& 0xFF) &&& 0xF0) &&& 15 = 0
    rw [Nat.land_assoc, show ((0xF0 : Nat) &&& 15) = 0 from rfl, Nat.and_zero]
  | BC => exact h
  | DE => exact h
  | HL => exact h
  | PC => exact h
  | SP => exact h

/-- `check_interrupts_enabled` never touches F. -/
theorem check_interrupts_f (cpu : Cpu) :
    cpu.check_interrupts_enabled.f = cpu.f := by
  unfold Cpu.check_interrupts_enabled
  split <;> rfl

/-- Writing SP never touches F. -/
theorem write_wide_sp_f (cpu : Cpu) (v : Nat) :
    (cpu.write_register_wide .SP v).f = cpu.f := rfl

/-- Writing PC never touches F. -/
theorem write_wide_pc_f (cpu : Cpu) (v : Nat) :
    (cpu.write_register_wide .PC v).f = cpu.f := rfl

/-- A serviced interrupt never touches F. -/
theorem handled_interrupts_f (cpu : Cpu) (memory : Memory) :
    ∀ r, cpu.handled_interrupts memory = some r → r.1.f = cpu.f := by
  intro r h
  unfold Cpu.handled_interrupts at h
  dsimp only at h
  repeat' split at h
  all_goals
    first
      | exact Option.noConfusion h
      | (injection h with h2; subst h2
         dsimp only
         rw [write_wide_pc_f, write_wide_sp_f])

/-- The preservation property one opcode-table entry must satisfy: if the
entry decodes, its handler keeps the low nibble of F zero. -/
def preserves_f : Option Opcode → Prop
  | none => True
  | some op => ∀ (cpu : Cpu) (memory : Memory),
      cpu.f &&& 15 = 0 → ((op.execute cpu memory).1).f &&& 15 = 0

set_option maxHeartbeats 3200000 in
set_option maxRecDepth 4096 in
/-- Entries 0x00-0x3F of the unprefixed table preserve the F low nibble. -/
theorem decode_00_3f_preserves_f (byte : Nat) : preserves_f (decode_00_3f byte) := by
  unfold decode_00_3f
  split
  all_goals first
    | trivial
    | (intro cpu memory h
       dsimp only [Opcode.execute]
       (try dsimp only [call_a16, rst, push, dec_r16, inc_r16])
       (try split) <;>
         first
           | exact pres_wr _ _ _ (pres_wf _ _ (pres_wr _ _ _ h))
           | exact pres_wrw _ _ _ (pres_wrw _ _ _ h)
           | exact pres_wf _ _ (pres_wrw _ _ _ h)
           | exact pres_wf _ _ (pres_wr _ _ _ h)
           | exact pres_wr _ _ _ (pres_wf _ _ h)
           | exact pres_wrw _ _ _ h
           | exact pres_wr _ _ _ h
           | exact pres_wf _ _ h
           | exact h)

set_option maxHeartbeats 3200000 in
set_option maxRecDepth 4096 in
/-- Entries 0x40-0x7F of the unprefixed table preserve the F low nibble. -/
theorem decode_40_7f_preserves_f (byte : Nat) : preserves_f (decode_40_7f byte) := by
  unfold decode_40_7f
  split
  all_goals first
    | trivial
    | (intro cpu memory h
       first
         | exact h
         | exact pres_wr _ _ _ h
         | exact pres_wf _ _ h
         | exact pres_wrw _ _ _ h
         | exact pres_wf _ _ (pres_wr _ _ _ h)
         | exact pres_wr _ _ _ (pres_wf _ _ h)
         | exact pres_wf _ _ (pres_wrw _ _ _ h)
         | exact pres_wrw _ _ _ (pres_wrw _ _ _ h)
         | exact pres_wr _ _ _ (pres_wf _ _ (pres_wr _ _ _ h))
         | (dsimp only [Opcode.execute]
            split <;>
              first
                | exact h
                | exact pres_wrw _ _ _ h
                | exact pres_wrw _ _ _ (pres_wrw _ _ _ h)))

set_option maxHeartbeats 3200000 in
set_option maxRecDepth 4096 in
/-- Entries 0x80-0xBF of the unprefixed table preserve the F low nibble. -/
theorem decode_80_bf_preserves_f (byte : Nat) : preserves_f (decode_80_bf byte) := by
  unfold decode_80_bf
  split
  all_goals first
    | trivial
    | (intro cpu memory h
       first
         | exact h
         | exact pres_wr _ _ _ h
         | exact pres_wf _ _ h
         | exact pres_wrw _ _ _ h
         | exact pres_wf _ _ (pres_wr _ _ _ h)
         | exact pres_wr _ _ _ (pres_wf _ _ h)
         | exact pres_wf _ _ (pres_wrw _ _ _ h)
         | exact pres_wrw _ _ _ (pres_wrw _ _ _ h)
         | exact pres_wr _ _ _ (pres_wf _ _ (pres_wr _ _ _ h))
         | (dsimp only [Opcode.execute]
            split <;>
              first
                | exact h
                | exact pres_wrw _ _ _ h
                | exact pres_wrw _ _ _ (pres_wrw _ _ _ h)))

set_option maxHeartbeats 3200000 in
set_option maxRecDepth 4096 in
/-- Entries 0xC0-0xFF of the unprefixed table preserve the F low nibble. -/
theorem decode_c0_ff_preserves_f (byte : Nat) : preserves_f (decode_c0_ff byte) := by
  unfold decode_c0_ff
  split
  all_goals first
    | trivial
    | (intro cpu memory h
       dsimp only [Opcode.execute]
       (try dsimp only [call_a16, rst, push, dec_r16, inc_r16])
       (try split) <;>
         first
           | exact pres_wr _ _ _ (pres_wf _ _ (pres_wr _ _ _ h))
           | exact pres_wrw _ _ _ (pres_wrw _ _ _ h)
           | exact pres_wf _ _ (pres_wrw _ _ _ h)
           | exact pres_wf _ _ (pres_wr _ _ _ h)
           | exact pres_wr _ _ _ (pres_wf _ _ h)
           | exact pres_wrw _ _ _ h
           | exact pres_wr _ _ _ h
           | exact pres_wf _ _ h
           | exact h)

set_option maxRecDepth 4096 in
/-- Every entry of the unprefixed table preserves the F low nibble. -/
theorem decode_preserves_f (byte : Nat) : preserves_f (decode byte) := by
  unfold decode
  split
  · exact decode_00_3f_preserves_f byte
  · split
    · exact decode_40_7f_preserves_f byte
    · split
      · exact decode_80_bf_preserves_f byte
      · exact decode_c0_ff_preserves_f byte

set_option maxHeartbeats 3200000 in
set_option maxRecDepth 4096 in
/-- Entries 0x00-0x3F of the CB-prefixed table preserve the F low nibble. -/
theorem decode_prefixed_00_3f_preserves_f (byte : Nat) :
    preserves_f (decode_prefixed_00_3f byte) := by
  unfold decode_prefixed_00_3f
  split
  all_goals first
    | trivial
    | (intro cpu memory h
       first
         | exact h
         | exact pres_wr _ _ _ h
         | exact pres_wf _ _ h
         | exact pres_wf _ _ (pres_wr _ _ _ h)
         | exact pres_wr _ _ _ (pres_wf _ _ h)
         | exact pres_wr _ _ _ (pres_wf _ _ (pres_wr _ _ _ h)))

set_option maxHeartbeats 3200000 in
set_option maxRecDepth 4096 in
/-- Entries 0x40-0x7F of the CB-prefixed table preserve the F low nibble. -/
theorem decode_prefixed_40_7f_preserves_f (byte : Nat) :
    preserves_f (decode_prefixed_40_7f byte) := by
  unfold decode_prefixed_40_7f
  split
  all_goals first
    | trivial
    | (intro cpu memory h
       first
         | exact h
         | exact pres_wr _ _ _ h
         | exact pres_wf _ _ h
         | exact pres_wf _ _ (pres_wr _ _ _ h)
         | exact pres_wr _ _ _ (pres_wf _ _ h)
         | exact pres_wr _ _ _ (pres_wf _ _ (pres_wr _ _ _ h)))

set_option maxHeartbeats 3200000 in
set_option maxRecDepth 4096 in
/-- Entries 0x80-0xBF of the CB-prefixed table preserve the F low nibble. -/
theorem decode_prefixed_80_bf_preserves_f (byte : Nat) :
    preserves_f (decode_prefixed_80_bf byte) := by
  unfold decode_prefixed_80_bf
  split
  all_goals first
    | trivial
    | (intro cpu memory h
       first
         | exact h
         | exact pres_wr _ _ _ h
         | exact pres_wf _ _ h
         | exact pres_wf _ _ (pres_wr _ _ _ h)
         | exact pres_wr _ _ _ (pres_wf _ _ h)
         | exact pres_wr _ _ _ (pres_wf _ _ (pres_wr _ _ _ h)))

set_option maxHeartbeats 3200000 in
set_option maxRecDepth 4096 in
/-- Entries 0xC0-0xFF of the CB-prefixed table preserve the F low nibble. -/
theorem decode_prefixed_c0_ff_preserves_f (byte : Nat) :
    preserves_f (decode_prefixed_c0_ff byte) := by
  unfold decode_prefixed_c0_ff
  split
  all_goals first
    | trivial
    | (intro cpu memory h
       first
         | exact h
         | exact pres_wr _ _ _ h
         | exact pres_wf _ _ h
         | exact pres_wf _ _ (pres_wr _ _ _ h)
         | exact pres_wr _ _ _ (pres_wf _ _ h)
         | exact pres_wr _ _ _ (pres_wf _ _ (pres_wr _ _ _ h)))

set_option maxRecDepth 4096 in
/-- Every entry of the CB-prefixed table preserves the F low nibble. -/
theorem decode_prefixed_preserves_f (byte : Nat) : preserves_f (decode_prefixed byte) := by
  unfold decode_prefixed
  split
  · exact decode_prefixed_00_3f_preserves_f byte
  · split
    · exact decode_prefixed_40_7f_preserves_f byte
    · split
      · exact decode_prefixed_80_bf_preserves_f byte
      · exact decode_prefixed_c0_ff_preserves_f byte

/-- The step tail preserves the F low nibble whenever the table entry does. -/
theorem pres_step_after_decode (cpu : Cpu) (memory : Memory) (o : Option Opcode)
    (ho : preserves_f o) (h : cpu.f &&& 15 = 0) :
    ((step_after_decode cpu memory o).1).f &&& 15 = 0 := by
  cases o with
  | none => exact h
  | some op =>
    dsimp only [step_after_decode]
    rw [check_interrupts_f]
    refine ho _ memory ?_
    split <;> exact h

/-- C8: the low nibble of F being zero is an invariant of `Cpu::step`: any
single step — any instruction of either table, flag writes, POP AF and
interrupt dispatch included — started from a state with F's low nibble zero
ends with F's low nibble zero. -/
theorem low_nibble_f_invariant (cpu : Cpu) (memory : Memory)
    (h : f_low_nibble_zero cpu) : f_low_nibble_zero (Cpu.step cpu memory).1 := by
  unfold f_low_nibble_zero at *
  unfold Cpu.step
  cases hI : cpu.handled_interrupts memory with
  | some r =>
    dsimp only
    rw [check_interrupts_f, handled_interrupts_f cpu memory r hI]
    exact h
  | none =>
    dsimp only
    split
    · exact pres_step_after_decode _ _ _ (decode_prefixed_preserves_f _) h
    · exact pres_step_after_decode _ _ _ (decode_preserves_f _) h

/-- C8 (witness): instantiated at `cpuZero` over all-zero memory. -/
theorem low_nibble_f_invariant_witness :
    f_low_nibble_zero cpuZero ∧
    f_low_nibble_zero (Cpu.step cpuZero ⟨zeroRam, .inactive, zeroRam, 0⟩).1 := by
  constructor
  · unfold f_low_nibble_zero
    decide
  · exact low_nibble_f_invariant cpuZero _ (by unfold f_low_nibble_zero; decide)

end Jameboy
